import Mathlib

/-!
# SDL examples: resource lifecycle and event loop

A shallow embedding of the four tutorial programs
`01_creating-a-window`, `02_handling-events`, `03_rendering-an-image` and
`04_rendering-text`, and proofs about their initialisation, event loop and
teardown.

* A pointer returned by the library is `Ptr := Option Nat`; `none` is `NULL`.
* Every library call a program makes is recorded, in order, as a `Call` in a
  trace, together with the handle arguments it receives and the value the
  library returned.
* The outcome of every library call of the start-up is supplied by an `Env`;
  the programs are functions of the `Env`.
* The event queue is a `PollState`: the events already queued and a finite
  schedule of batches, one batch made available to each later `SDL_PollEvent`.
  The drain `while (SDL_PollEvent(&evt) != 0)` is then total; the main loop
  `while (!quit)` need not terminate and is unfolded with fuel.
* The code of `SDL_PollEvent` is in the SDL library, not in the repository.
  Which of the events that arrive during a drain it hands out in that drain is
  modelled from the specification as `SDL_PollEvent_spec` on a `CycleQueue`.
* Reading a field through a `NULL` pointer ends the run with `Exit.fault`.
-/

namespace SDLExamples

/-! ## Library values -/

/-- A library pointer, `none` being `NULL`. -/
abbrev Ptr := Option Nat

/-- The fields of `SDL_Event` the programs read: `evt.type` and
`evt.key.keysym.sym`. -/
structure Event where
  type : Nat
  sym : Int
  deriving DecidableEq, Repr

/-- Value of `SDL_QUIT` in `SDL_events.h`. -/
def SDL_QUIT : Nat := 0x100
/-- Value of `SDL_KEYDOWN` in `SDL_events.h`. -/
def SDL_KEYDOWN : Nat := 0x300
/-- Value of `SDL_KEYUP` in `SDL_events.h`. -/
def SDL_KEYUP : Nat := 0x301
/-- Value of `SDLK_RIGHT` in `SDL_keycode.h` (scancode 79 with bit 30 set). -/
def SDLK_RIGHT : Int := 0x4000004F
/-- Value of `SDLK_LEFT` in `SDL_keycode.h` (scancode 80 with bit 30 set). -/
def SDLK_LEFT : Int := 0x40000050
/-- Value of `SDLK_DOWN` in `SDL_keycode.h` (scancode 81 with bit 30 set). -/
def SDLK_DOWN : Int := 0x40000051
/-- Value of `SDLK_UP` in `SDL_keycode.h` (scancode 82 with bit 30 set). -/
def SDLK_UP : Int := 0x40000052
/-- Value of `IMG_INIT_PNG` in `SDL_image.h`. -/
def IMG_INIT_PNG : Nat := 0x2

/-- One call into the library, with the handles it receives and, for calls
whose result the programs inspect, the value returned. `deref_format s` is the
read of `s->format` that the programs perform on the window surface. -/
inductive Call where
  | SDL_Init (ret : Int)
  | IMG_Init (ret : Nat)
  | TTF_Init (ret : Int)
  | SDL_Log
  | SDL_CreateWindow (ret : Ptr)
  | SDL_GetWindowSurface (window : Ptr) (ret : Ptr)
  | deref_format (surface : Ptr)
  | SDL_MapRGB (r g b : Nat)
  | SDL_FillRect (surface : Ptr) (color : Nat)
  | SDL_UpdateWindowSurface (window : Ptr)
  | SDL_Delay (ms : Nat)
  | SDL_CreateRenderer (window : Ptr) (ret : Ptr)
  | SDL_SetRenderDrawColor (renderer : Ptr)
  | IMG_Load (ret : Ptr)
  | TTF_OpenFont (ret : Ptr)
  | TTF_RenderText_Solid (font : Ptr) (ret : Ptr)
  | SDL_CreateTextureFromSurface (renderer : Ptr) (surface : Ptr) (ret : Ptr)
  | SDL_FreeSurface (surface : Ptr)
  | SDL_PollEvent (ret : Option Event)
  | SDL_RenderClear (renderer : Ptr)
  | SDL_RenderCopy (renderer : Ptr) (texture : Ptr)
  | SDL_RenderPresent (renderer : Ptr)
  | SDL_DestroyTexture (texture : Ptr)
  | TTF_CloseFont (font : Ptr)
  | SDL_DestroyRenderer (renderer : Ptr)
  | SDL_DestroyWindow (window : Ptr)
  | IMG_Quit
  | TTF_Quit
  | SDL_Quit
  deriving DecidableEq, Repr

/-! ## The event queue -/

/-- The library's event queue as the program can observe it: the events it
can hand out now, and the batches of events it makes available to each of the
following calls of `SDL_PollEvent` (one batch per call; once the schedule is
used up nothing more comes). Which events the library makes available to which
poll is the library's business: every finite sequence of poll results comes
from some `PollState` (`pollResults_realised`). -/
structure PollState where
  queue : List Event
  arrivals : List (List Event)
  deriving DecidableEq, Repr

/-- Library call `SDL_PollEvent`: the events made available to this call join
the back of the queue; the call then returns 0 (`none`) when the queue is empty
and otherwise removes and returns the event at the front. -/
def SDL_PollEvent (ps : PollState) : Option Event × PollState :=
  match ps.queue ++ ps.arrivals.headD [] with
  | [] => (none, ⟨[], ps.arrivals.tail⟩)
  | e :: q => (some e, ⟨q, ps.arrivals.tail⟩)

/-- Number of events queued or still to come. -/
def PollState.pending (ps : PollState) : Nat :=
  ps.queue.length + (ps.arrivals.map List.length).sum

/-! ## Outcomes of the library calls -/

/-- What the library answers to each call a program makes during start-up, and
the event queue the main loop will poll. -/
structure Env where
  /-- return value of `SDL_Init` (negative on failure) -/
  sdlInit : Int
  /-- return value of `IMG_Init` (the flags that are initialised) -/
  imgInit : Nat
  /-- return value of `TTF_Init` (negative on failure) -/
  ttfInit : Int
  /-- return value of `SDL_CreateWindow` -/
  createWindow : Ptr
  /-- return value of `SDL_GetWindowSurface` -/
  getWindowSurface : Ptr
  /-- return value of `SDL_MapRGB` for the surface format -/
  mapRGB : Nat → Nat → Nat → Nat
  /-- return value of `SDL_CreateRenderer` -/
  createRenderer : Ptr
  /-- return value of `IMG_Load` -/
  imgLoad : Ptr
  /-- return value of `TTF_OpenFont` -/
  openFont : Ptr
  /-- return value of `TTF_RenderText_Solid` -/
  renderText : Ptr
  /-- return value of `SDL_CreateTextureFromSurface` -/
  createTexture : Ptr
  /-- the event queue at the first poll of the main loop -/
  events : PollState

/-- How a run of `main` ends: it returns an exit code, or it stops at the
dereference of a `NULL` pointer. -/
inductive Exit where
  | code (n : Int)
  | fault
  deriving DecidableEq, Repr

/-- A finished run: how it ended and every library call it made, in order. -/
structure Run where
  exit : Exit
  calls : List Call
  deriving DecidableEq, Repr

/-! ## The event loop shared by examples 02, 03 and 04

The three programs have the same loop
`while (!quit) { while (SDL_PollEvent(&evt) != 0) { switch ... } redraw }`
and differ in the `switch` (`dispatch`) and in the redraw calls. -/

section Loop
variable {σ : Type}

/-- Result of a piece of the loop: the application state, the event queue, and
the library calls made. -/
structure Step (σ : Type) where
  app : σ
  ps : PollState
  calls : List Call

/-- The drain `while (SDL_PollEvent(&evt) != 0) { dispatch }`, unfolded at most
`fuel` times. -/
def drain (dispatch : σ → Event → σ) : Nat → σ → PollState → Step σ
  | 0, a, ps => ⟨a, ps, []⟩
  | fuel + 1, a, ps =>
    match SDL_PollEvent ps with
    | (none, ps1) => ⟨a, ps1, [Call.SDL_PollEvent none]⟩
    | (some evt, ps1) =>
      let r := drain dispatch fuel (dispatch a evt) ps1
      ⟨r.app, r.ps, Call.SDL_PollEvent (some evt) :: r.calls⟩

/-- The drain run to completion: every successful poll removes one pending
event, so `pending + 1` polls always reach the poll that returns 0. -/
def drainAll (dispatch : σ → Event → σ) (a : σ) (ps : PollState) : Step σ :=
  drain dispatch (ps.pending + 1) a ps

/-- One iteration of the main loop: the drain, then the redraw. -/
def iteration (dispatch : σ → Event → σ) (redraw : σ → List Call)
    (a : σ) (ps : PollState) : Step σ :=
  let d := drainAll dispatch a ps
  ⟨d.app, d.ps, d.calls ++ redraw d.app⟩

/-- The main loop `while (!quit) { iteration }`, unfolded at most `fuel` times.
The loop has exited iff `quit` holds of the resulting state. -/
def whileNotQuit (dispatch : σ → Event → σ) (quit : σ → Bool)
    (redraw : σ → List Call) : Nat → σ → PollState → Step σ
  | 0, a, ps => ⟨a, ps, []⟩
  | fuel + 1, a, ps =>
    if quit a then ⟨a, ps, []⟩
    else
      let i := iteration dispatch redraw a ps
      let r := whileNotQuit dispatch quit redraw fuel i.app i.ps
      ⟨r.app, r.ps, i.calls ++ r.calls⟩

end Loop

/-- The events a sequence of calls handed to the program: the results of the
polls that did not return 0. -/
def dispatched (calls : List Call) : List Event :=
  calls.filterMap fun c =>
    match c with
    | Call.SDL_PollEvent (some e) => some e
    | _ => none

/-- Whether a call presents a frame (`SDL_UpdateWindowSurface` or
`SDL_RenderPresent`). -/
def isPresent : Call → Bool
  | Call.SDL_UpdateWindowSurface _ => true
  | Call.SDL_RenderPresent _ => true
  | _ => false

/-- Whether a call is a poll of the event queue. -/
def isPoll : Call → Bool
  | Call.SDL_PollEvent _ => true
  | _ => false

/-- Number of frames presented by a sequence of calls. -/
def presents (calls : List Call) : Nat := calls.countP isPresent

/-! ## Resource accounting on a trace -/

/-- What a program can hold: the two subsystems (SDL itself and the extension
library, SDL_image or SDL_ttf), and handles. -/
inductive Resource where
  | sdl
  | ext
  | window (h : Nat)
  | renderer (h : Nat)
  | font (h : Nat)
  | texture (h : Nat)
  | surface (h : Nat)
  deriving DecidableEq, Repr

/-- The resource a call acquires, judged by the test the programs apply to the
value returned. The window surface of `SDL_GetWindowSurface` belongs to the
window and is not acquired by the caller. -/
def acquired : Call → Option Resource
  | Call.SDL_Init r => if r < 0 then none else some Resource.sdl
  | Call.IMG_Init r => if r &&& IMG_INIT_PNG = 0 then none else some Resource.ext
  | Call.TTF_Init r => if r < 0 then none else some Resource.ext
  | Call.SDL_CreateWindow (some h) => some (Resource.window h)
  | Call.SDL_CreateRenderer _ (some h) => some (Resource.renderer h)
  | Call.TTF_OpenFont (some h) => some (Resource.font h)
  | Call.SDL_CreateTextureFromSurface _ _ (some h) => some (Resource.texture h)
  | Call.IMG_Load (some h) => some (Resource.surface h)
  | Call.TTF_RenderText_Solid _ (some h) => some (Resource.surface h)
  | _ => none

/-- The resource a call releases. -/
def released : Call → Option Resource
  | Call.SDL_DestroyTexture (some h) => some (Resource.texture h)
  | Call.TTF_CloseFont (some h) => some (Resource.font h)
  | Call.SDL_DestroyRenderer (some h) => some (Resource.renderer h)
  | Call.SDL_DestroyWindow (some h) => some (Resource.window h)
  | Call.SDL_FreeSurface (some h) => some (Resource.surface h)
  | Call.IMG_Quit => some Resource.ext
  | Call.TTF_Quit => some Resource.ext
  | Call.SDL_Quit => some Resource.sdl
  | _ => none

/-- The resources acquired by a sequence of calls, in order. -/
def acquisitions (calls : List Call) : List Resource := calls.filterMap acquired

/-- The resources released by a sequence of calls, in order. -/
def releases (calls : List Call) : List Resource := calls.filterMap released

/-- Effect of one call on the list of resources held (oldest first). -/
def holdStep (hs : List Resource) (c : Call) : List Resource :=
  match released c with
  | some r => hs.erase r
  | none =>
    match acquired c with
    | some r => hs ++ [r]
    | none => hs

/-- The resources still held after a sequence of calls, in the order they were
acquired. -/
def held (calls : List Call) : List Resource := calls.foldl holdStep []

/-- Whether a call destroys a handle. -/
def isDestroy : Call → Bool
  | Call.SDL_DestroyTexture _ => true
  | Call.TTF_CloseFont _ => true
  | Call.SDL_DestroyRenderer _ => true
  | Call.SDL_DestroyWindow _ => true
  | Call.SDL_FreeSurface _ => true
  | _ => false

/-- The steps of an initializer at which the library can refuse. -/
inductive InitStep where
  | subsystem
  | extension
  | window
  | renderer
  | font
  | assetLoad
  | texture
  deriving DecidableEq, Repr

/-! ## Example 01: creating a window -/

namespace Ex01

/-- Function `main` of `01_creating-a-window/main.cpp`. -/
def main (env : Env) : Run :=
  let t := [Call.SDL_Init env.sdlInit]
  if env.sdlInit < 0 then ⟨Exit.code (-1), t ++ [Call.SDL_Log]⟩
  else
    let window := env.createWindow
    let t := t ++ [Call.SDL_CreateWindow window]
    if window = none then ⟨Exit.code (-2), t ++ [Call.SDL_Log, Call.SDL_Quit]⟩
    else
      let screenSurface := env.getWindowSurface
      let t := t ++ [Call.SDL_GetWindowSurface window screenSurface,
                     Call.deref_format screenSurface]
      if screenSurface = none then ⟨Exit.fault, t⟩
      else
        ⟨Exit.code 0, t ++ [Call.SDL_MapRGB 0xFF 0xFF 0xFF,
           Call.SDL_FillRect screenSurface (env.mapRGB 0xFF 0xFF 0xFF),
           Call.SDL_UpdateWindowSurface window,
           Call.SDL_Delay 2000,
           Call.SDL_DestroyWindow window,
           Call.SDL_Quit]⟩

end Ex01

/-! ## Example 02: handling events -/

namespace Ex02

/-- The static variables of `02_handling-events/main.cpp`. -/
structure Globals where
  gWindow : Ptr
  gScreenSurface : Ptr
  white : Nat
  red : Nat
  yellow : Nat
  green : Nat
  blue : Nat
  currentColor : Nat
  deriving DecidableEq, Repr

/-- The statics as initialised at program start (`NULL` and `0`). -/
def Globals.initial : Globals := ⟨none, none, 0, 0, 0, 0, 0, 0⟩

/-- The state the event loop works on: the local `quit` of `main` and the
statics. -/
structure App where
  quit : Bool
  g : Globals
  deriving DecidableEq, Repr

/-- Function `onKeyDown`: the `switch (evt.key.keysym.sym)`. -/
def onKeyDown (g : Globals) (evt : Event) : Globals :=
  if evt.sym = SDLK_UP then { g with currentColor := g.red }
  else if evt.sym = SDLK_RIGHT then { g with currentColor := g.yellow }
  else if evt.sym = SDLK_DOWN then { g with currentColor := g.green }
  else if evt.sym = SDLK_LEFT then { g with currentColor := g.blue }
  else g

/-- The body of the drain loop of `main`: the `switch (evt.type)`. -/
def dispatch (a : App) (evt : Event) : App :=
  if evt.type = SDL_QUIT then { a with quit := true }
  else if evt.type = SDL_KEYDOWN then { a with g := onKeyDown a.g evt }
  else if evt.type = SDL_KEYUP then { a with g := { a.g with currentColor := a.g.white } }
  else a

/-- Result of `init`: `ret` is the value returned, or `none` when the run
stopped inside `init` at the dereference of a `NULL` surface. -/
structure InitResult where
  ret : Option Bool
  g : Globals
  calls : List Call
  deriving DecidableEq, Repr

/-- Function `init` of `02_handling-events/main.cpp`. -/
def init (env : Env) (g : Globals) : InitResult :=
  let t := [Call.SDL_Init env.sdlInit]
  if env.sdlInit < 0 then ⟨some false, g, t ++ [Call.SDL_Log]⟩
  else
    let g := { g with gWindow := env.createWindow }
    let t := t ++ [Call.SDL_CreateWindow g.gWindow]
    if g.gWindow = none then ⟨some false, g, t ++ [Call.SDL_Log, Call.SDL_Quit]⟩
    else
      let g := { g with gScreenSurface := env.getWindowSurface }
      let t := t ++ [Call.SDL_GetWindowSurface g.gWindow g.gScreenSurface,
                     Call.deref_format g.gScreenSurface]
      if g.gScreenSurface = none then ⟨none, g, t⟩
      else
        let g := { g with white := env.mapRGB 0xFF 0xFF 0xFF }
        let t := t ++ [Call.SDL_MapRGB 0xFF 0xFF 0xFF]
        let g := { g with red := env.mapRGB 0xFF 0x00 0x00 }
        let t := t ++ [Call.deref_format g.gScreenSurface, Call.SDL_MapRGB 0xFF 0x00 0x00]
        let g := { g with yellow := env.mapRGB 0xFF 0xFF 0x00 }
        let t := t ++ [Call.deref_format g.gScreenSurface, Call.SDL_MapRGB 0xFF 0xFF 0x00]
        let g := { g with green := env.mapRGB 0x00 0xFF 0x00 }
        let t := t ++ [Call.deref_format g.gScreenSurface, Call.SDL_MapRGB 0x00 0xFF 0x00]
        let g := { g with blue := env.mapRGB 0x00 0x00 0xFF }
        let t := t ++ [Call.deref_format g.gScreenSurface, Call.SDL_MapRGB 0x00 0x00 0xFF]
        let g := { g with currentColor := g.white }
        ⟨some true, g, t⟩

/-- Function `close` of `02_handling-events/main.cpp`: the statics afterwards and the
calls made. -/
def close (g : Globals) : Globals × List Call :=
  let (g, t) :=
    if g.gWindow ≠ none then
      ({ g with gWindow := none }, [Call.SDL_DestroyWindow g.gWindow])
    else (g, [])
  (g, t ++ [Call.SDL_Quit])

/-- The redraw at the end of an iteration of the main loop. -/
def redraw (a : App) : List Call :=
  [Call.SDL_FillRect a.g.gScreenSurface a.g.currentColor,
   Call.SDL_UpdateWindowSurface a.g.gWindow]

/-- Function `main` of `02_handling-events/main.cpp`; `none` when the main loop has not
exited within `fuel` iterations. -/
def main (env : Env) (fuel : Nat) : Option Run :=
  let i := init env Globals.initial
  match i.ret with
  | none => some ⟨Exit.fault, i.calls⟩
  | some false => some ⟨Exit.code (-1), i.calls⟩
  | some true =>
    let r := whileNotQuit dispatch App.quit redraw fuel ⟨false, i.g⟩ env.events
    if r.app.quit then
      some ⟨Exit.code 0, i.calls ++ r.calls ++ (close r.app.g).2⟩
    else none

/-- The initializer step at which the library first refuses, if any. -/
def firstFailure (env : Env) : Option InitStep :=
  if env.sdlInit < 0 then some InitStep.subsystem
  else if env.createWindow = none then some InitStep.window
  else none

end Ex02

/-! ## Example 03: rendering an image -/

namespace Ex03

/-- The static variables of `03_rendering-an-image/main.cpp`. -/
structure Globals where
  gWindow : Ptr
  gRenderer : Ptr
  gTexture : Ptr
  deriving DecidableEq, Repr

/-- The statics as initialised at program start (`NULL`). -/
def Globals.initial : Globals := ⟨none, none, none⟩

/-- The state the event loop works on: the local `quit` of `main` and the
statics. -/
structure App where
  quit : Bool
  g : Globals
  deriving DecidableEq, Repr

/-- Function `close` of `03_rendering-an-image/main.cpp`: the statics afterwards and the
calls made. -/
def close (g : Globals) : Globals × List Call :=
  let (g, t) :=
    if g.gTexture ≠ none then
      ({ g with gTexture := none }, [Call.SDL_DestroyTexture g.gTexture])
    else (g, [])
  let (g, t) :=
    if g.gRenderer ≠ none then
      ({ g with gRenderer := none }, t ++ [Call.SDL_DestroyRenderer g.gRenderer])
    else (g, t)
  let (g, t) :=
    if g.gWindow ≠ none then
      ({ g with gWindow := none }, t ++ [Call.SDL_DestroyWindow g.gWindow])
    else (g, t)
  (g, t ++ [Call.IMG_Quit, Call.SDL_Quit])

/-- Function `loadTexture` of `03_rendering-an-image/main.cpp`: the pointer returned and
the calls made. -/
def loadTexture (env : Env) (g : Globals) : Ptr × List Call :=
  let surface := env.imgLoad
  let t := [Call.IMG_Load surface]
  if surface = none then (none, t ++ [Call.SDL_Log])
  else
    let texture := env.createTexture
    let t := t ++ [Call.SDL_CreateTextureFromSurface g.gRenderer surface texture,
                   Call.SDL_FreeSurface surface]
    if texture = none then (none, t ++ [Call.SDL_Log])
    else (texture, t)

/-- Function `init` of `03_rendering-an-image/main.cpp`: the value returned, the statics
afterwards and the calls made. -/
def init (env : Env) (g : Globals) : Bool × Globals × List Call :=
  let t := [Call.SDL_Init env.sdlInit]
  if env.sdlInit < 0 then (false, g, t ++ [Call.SDL_Log])
  else
    let t := t ++ [Call.IMG_Init env.imgInit]
    if env.imgInit &&& IMG_INIT_PNG = 0 then
      let c := close g
      (false, c.1, t ++ [Call.SDL_Log] ++ c.2)
    else
      let g := { g with gWindow := env.createWindow }
      let t := t ++ [Call.SDL_CreateWindow g.gWindow]
      if g.gWindow = none then
        let c := close g
        (false, c.1, t ++ [Call.SDL_Log] ++ c.2)
      else
        let g := { g with gRenderer := env.createRenderer }
        let t := t ++ [Call.SDL_CreateRenderer g.gWindow g.gRenderer]
        if g.gRenderer = none then
          let c := close g
          (false, c.1, t ++ [Call.SDL_Log] ++ c.2)
        else
          let t := t ++ [Call.SDL_SetRenderDrawColor g.gRenderer]
          let l := loadTexture env g
          let g := { g with gTexture := l.1 }
          let t := t ++ l.2
          if g.gTexture = none then
            let c := close g
            (false, c.1, t ++ c.2)
          else (true, g, t)

/-- The body of the drain loop of `main`: the `switch (evt.type)`. -/
def dispatch (a : App) (evt : Event) : App :=
  if evt.type = SDL_QUIT then { a with quit := true } else a

/-- The redraw at the end of an iteration of the main loop. -/
def redraw (a : App) : List Call :=
  [Call.SDL_RenderClear a.g.gRenderer,
   Call.SDL_RenderCopy a.g.gRenderer a.g.gTexture,
   Call.SDL_RenderPresent a.g.gRenderer]

/-- Function `main` of `03_rendering-an-image/main.cpp`; `none` when the main loop has
not exited within `fuel` iterations. -/
def main (env : Env) (fuel : Nat) : Option Run :=
  let i := init env Globals.initial
  if !i.1 then some ⟨Exit.code (-1), i.2.2⟩
  else
    let r := whileNotQuit dispatch App.quit redraw fuel ⟨false, i.2.1⟩ env.events
    if r.app.quit then
      some ⟨Exit.code 0, i.2.2 ++ r.calls ++ (close r.app.g).2⟩
    else none

/-- The initializer step at which the library first refuses, if any. -/
def firstFailure (env : Env) : Option InitStep :=
  if env.sdlInit < 0 then some InitStep.subsystem
  else if env.imgInit &&& IMG_INIT_PNG = 0 then some InitStep.extension
  else if env.createWindow = none then some InitStep.window
  else if env.createRenderer = none then some InitStep.renderer
  else if env.imgLoad = none then some InitStep.assetLoad
  else if env.createTexture = none then some InitStep.texture
  else none

end Ex03

/-! ## Example 04: rendering text -/

namespace Ex04

/-- The static variables of `04_rendering-text/main.cpp`. -/
structure Globals where
  gWindow : Ptr
  gRenderer : Ptr
  gTexture : Ptr
  gFont : Ptr
  deriving DecidableEq, Repr

/-- The statics as initialised at program start (`NULL`). -/
def Globals.initial : Globals := ⟨none, none, none, none⟩

/-- The state the event loop works on: the local `quit` of `main` and the
statics. -/
structure App where
  quit : Bool
  g : Globals
  deriving DecidableEq, Repr

/-- Function `close` of `04_rendering-text/main.cpp`: the statics afterwards and the
calls made. -/
def close (g : Globals) : Globals × List Call :=
  let (g, t) :=
    if g.gTexture ≠ none then
      ({ g with gTexture := none }, [Call.SDL_DestroyTexture g.gTexture])
    else (g, [])
  let (g, t) :=
    if g.gFont ≠ none then
      ({ g with gFont := none }, t ++ [Call.TTF_CloseFont g.gFont])
    else (g, t)
  let (g, t) :=
    if g.gRenderer ≠ none then
      ({ g with gRenderer := none }, t ++ [Call.SDL_DestroyRenderer g.gRenderer])
    else (g, t)
  let (g, t) :=
    if g.gWindow ≠ none then
      ({ g with gWindow := none }, t ++ [Call.SDL_DestroyWindow g.gWindow])
    else (g, t)
  (g, t ++ [Call.TTF_Quit, Call.SDL_Quit])

/-- Function `createTextureFromText` of `04_rendering-text/main.cpp`: the pointer
returned and the calls made. -/
def createTextureFromText (env : Env) (g : Globals) : Ptr × List Call :=
  let surface := env.renderText
  let t := [Call.TTF_RenderText_Solid g.gFont surface]
  if surface = none then (none, t ++ [Call.SDL_Log])
  else
    let texture := env.createTexture
    let t := t ++ [Call.SDL_CreateTextureFromSurface g.gRenderer surface texture,
                   Call.SDL_FreeSurface surface]
    if texture = none then (none, t ++ [Call.SDL_Log])
    else (texture, t)

/-- Function `init` of `04_rendering-text/main.cpp`: the value returned, the statics
afterwards and the calls made. -/
def init (env : Env) (g : Globals) : Bool × Globals × List Call :=
  let t := [Call.SDL_Init env.sdlInit]
  if env.sdlInit < 0 then (false, g, t ++ [Call.SDL_Log])
  else
    let t := t ++ [Call.TTF_Init env.ttfInit]
    if env.ttfInit < 0 then
      let c := close g
      (false, c.1, t ++ [Call.SDL_Log] ++ c.2)
    else
      let g := { g with gWindow := env.createWindow }
      let t := t ++ [Call.SDL_CreateWindow g.gWindow]
      if g.gWindow = none then
        let c := close g
        (false, c.1, t ++ [Call.SDL_Log] ++ c.2)
      else
        let g := { g with gRenderer := env.createRenderer }
        let t := t ++ [Call.SDL_CreateRenderer g.gWindow g.gRenderer]
        if g.gRenderer = none then
          let c := close g
          (false, c.1, t ++ [Call.SDL_Log] ++ c.2)
        else
          let t := t ++ [Call.SDL_SetRenderDrawColor g.gRenderer]
          let g := { g with gFont := env.openFont }
          let t := t ++ [Call.TTF_OpenFont g.gFont]
          if g.gFont = none then
            let c := close g
            (false, c.1, t ++ [Call.SDL_Log] ++ c.2)
          else
            let l := createTextureFromText env g
            let g := { g with gTexture := l.1 }
            let t := t ++ l.2
            if g.gTexture = none then
              let c := close g
              (false, c.1, t ++ c.2)
            else (true, g, t)

/-- The body of the drain loop of `main`: the `switch (evt.type)`. -/
def dispatch (a : App) (evt : Event) : App :=
  if evt.type = SDL_QUIT then { a with quit := true } else a

/-- The redraw at the end of an iteration of the main loop. -/
def redraw (a : App) : List Call :=
  [Call.SDL_RenderClear a.g.gRenderer,
   Call.SDL_RenderCopy a.g.gRenderer a.g.gTexture,
   Call.SDL_RenderPresent a.g.gRenderer]

/-- Function `main` of `04_rendering-text/main.cpp`; `none` when the main loop has not
exited within `fuel` iterations. -/
def main (env : Env) (fuel : Nat) : Option Run :=
  let i := init env Globals.initial
  if !i.1 then some ⟨Exit.code (-1), i.2.2⟩
  else
    let r := whileNotQuit dispatch App.quit redraw fuel ⟨false, i.2.1⟩ env.events
    if r.app.quit then
      some ⟨Exit.code 0, i.2.2 ++ r.calls ++ (close r.app.g).2⟩
    else none

/-- The initializer step at which the library first refuses, if any. -/
def firstFailure (env : Env) : Option InitStep :=
  if env.sdlInit < 0 then some InitStep.subsystem
  else if env.ttfInit < 0 then some InitStep.extension
  else if env.createWindow = none then some InitStep.window
  else if env.createRenderer = none then some InitStep.renderer
  else if env.openFont = none then some InitStep.font
  else if env.renderText = none then some InitStep.assetLoad
  else if env.createTexture = none then some InitStep.texture
  else none

end Ex04

/-! ## Sample inputs -/

/-- A key-down event of the given key. -/
def keyDown (sym : Int) : Event := ⟨SDL_KEYDOWN, sym⟩
/-- A key-up event of the given key. -/
def keyUp (sym : Int) : Event := ⟨SDL_KEYUP, sym⟩
/-- A quit event. -/
def quitEvent : Event := ⟨SDL_QUIT, 0⟩

/-- An environment in which every call succeeds, with the given event queue. -/
def goodEnv (events : PollState) : Env :=
  { sdlInit := 0, imgInit := IMG_INIT_PNG, ttfInit := 0,
    createWindow := some 1, getWindowSurface := some 2,
    mapRGB := fun r g b => r * 65536 + g * 256 + b,
    createRenderer := some 3, imgLoad := some 4, openFont := some 5,
    renderText := some 4, createTexture := some 6, events := events }

/-- An environment in which the library refuses at the given step of the
initializer and succeeds before it. -/
def failingEnv (step : InitStep) : Env :=
  match step with
  | InitStep.subsystem => { goodEnv ⟨[], []⟩ with sdlInit := -1 }
  | InitStep.extension => { goodEnv ⟨[], []⟩ with imgInit := 0, ttfInit := -1 }
  | InitStep.window => { goodEnv ⟨[], []⟩ with createWindow := none }
  | InitStep.renderer => { goodEnv ⟨[], []⟩ with createRenderer := none }
  | InitStep.font => { goodEnv ⟨[], []⟩ with openFont := none }
  | InitStep.assetLoad => { goodEnv ⟨[], []⟩ with imgLoad := none, renderText := none }
  | InitStep.texture => { goodEnv ⟨[], []⟩ with createTexture := none }

/-- Sample statics of example 02 after a successful `init`. -/
def sampleGlobals : Ex02.Globals :=
  ⟨some 1, some 2, 0xFFFFFF, 0xFF0000, 0xFFFF00, 0x00FF00, 0x0000FF, 0xFFFFFF⟩

/-! ## Colour-affecting events (example 02) -/

/-- Whether an event is a key-down of UP, RIGHT, DOWN or LEFT, or a key-up. -/
def colourAffecting (e : Event) : Bool :=
  decide (e.type = SDL_KEYUP) ||
    (decide (e.type = SDL_KEYDOWN) &&
      (decide (e.sym = SDLK_UP) || decide (e.sym = SDLK_RIGHT) ||
        decide (e.sym = SDLK_DOWN) || decide (e.sym = SDLK_LEFT)))

/-- The last colour-affecting event of a sequence, if there is one. -/
def lastColourAffecting (es : List Event) : Option Event :=
  es.reverse.find? colourAffecting

/-! ## Counting iterations -/

/-- Number of times the body of `while (!quit)` is entered when the main loop is
unfolded at most `fuel` times: the loop test is the one of `whileNotQuit`. -/
def iterationsRun {σ : Type} (dispatch : σ → Event → σ) (quit : σ → Bool)
    (redraw : σ → List Call) : Nat → σ → PollState → Nat
  | 0, _, _ => 0
  | fuel + 1, a, ps =>
    if quit a then 0
    else
      let i := iteration dispatch redraw a ps
      1 + iterationsRun dispatch quit redraw fuel i.app i.ps

/-! ## The main loop as `main` runs it -/

/-- The main loop of example 02 as `main` enters it after a successful `init`:
`quit` is `false`, the statics are those `init` left. -/
def Ex02.mainLoop (env : Env) (fuel : Nat) : Step Ex02.App :=
  whileNotQuit Ex02.dispatch Ex02.App.quit Ex02.redraw fuel
    ⟨false, (Ex02.init env Ex02.Globals.initial).g⟩ env.events

/-- The main loop of example 03 as `main` enters it after a successful `init`. -/
def Ex03.mainLoop (env : Env) (fuel : Nat) : Step Ex03.App :=
  whileNotQuit Ex03.dispatch Ex03.App.quit Ex03.redraw fuel
    ⟨false, (Ex03.init env Ex03.Globals.initial).2.1⟩ env.events

/-- The main loop of example 04 as `main` enters it after a successful `init`. -/
def Ex04.mainLoop (env : Env) (fuel : Nat) : Step Ex04.App :=
  whileNotQuit Ex04.dispatch Ex04.App.quit Ex04.redraw fuel
    ⟨false, (Ex04.init env Ex04.Globals.initial).2.1⟩ env.events

/-! ## Teardown in reverse order of acquisition -/

/-- The calls of a run end with a teardown in reverse order of acquisition:
the calls split into a part `pre` that releases nothing but temporary surfaces
and a part `cl` that is empty or is the calls of one `close()` (`closeCalls g`
for some statics `g`), and the releases of `cl`, restricted to the resources
`pre` acquired, are the reverse of the acquisitions of `pre` not yet released
when `cl` starts. -/
def ReverseTeardown {γ : Type} (closeCalls : γ → List Call) (calls : List Call) : Prop :=
  ∃ pre cl, calls = pre ++ cl ∧
    (cl = [] ∨ ∃ g, cl = closeCalls g) ∧
    (∀ c ∈ pre, ∀ r, released c = some r → ∃ h, r = Resource.surface h) ∧
    (releases cl).filter (fun r => decide (r ∈ acquisitions pre)) =
      ((acquisitions pre).filter (fun r => decide (r ∉ releases pre))).reverse

/-! ## Handle arguments -/

/-- The handles a call receives (for `deref_format`, the pointer read through). -/
def handleArgs : Call → List Ptr
  | Call.SDL_GetWindowSurface w _ => [w]
  | Call.deref_format s => [s]
  | Call.SDL_FillRect s _ => [s]
  | Call.SDL_UpdateWindowSurface w => [w]
  | Call.SDL_CreateRenderer w _ => [w]
  | Call.SDL_SetRenderDrawColor r => [r]
  | Call.TTF_RenderText_Solid f _ => [f]
  | Call.SDL_CreateTextureFromSurface r s _ => [r, s]
  | Call.SDL_FreeSurface s => [s]
  | Call.SDL_RenderClear r => [r]
  | Call.SDL_RenderCopy r t => [r, t]
  | Call.SDL_RenderPresent r => [r]
  | Call.SDL_DestroyTexture t => [t]
  | Call.TTF_CloseFont f => [f]
  | Call.SDL_DestroyRenderer r => [r]
  | Call.SDL_DestroyWindow w => [w]
  | _ => []

/-- Whether a call receives a `NULL` handle. -/
def receivesNull (c : Call) : Bool := (handleArgs c).any Option.isNone

/-- An environment in which every call succeeds except `SDL_GetWindowSurface`,
which returns `NULL`. -/
def nullSurfaceEnv : Env := { goodEnv ⟨[quitEvent], []⟩ with getWindowSurface := none }

/-! ## Poll results -/

/-- The results of `n` successive calls of `SDL_PollEvent`. -/
def pollResults : Nat → PollState → List (Option Event)
  | 0, _ => []
  | n + 1, ps => (SDL_PollEvent ps).1 :: pollResults n (SDL_PollEvent ps).2

/-! ## The drain over a poll function, and the poll of the specification -/

/-- Result of a drain over a queue of type `κ`: the application state, the
queue, and the library calls made. -/
structure Drained (κ σ : Type) where
  app : σ
  queue : κ
  calls : List Call

/-- The drain `while (SDL_PollEvent(&evt) != 0) { dispatch }` of the main
loops, with the library's poll as a parameter, unfolded at most `fuel` times.
With `SDL_PollEvent` for `poll` it is `drain` (`drain_eq_drainWith`). -/
def drainWith {κ σ : Type} (poll : κ → Option Event × κ) (dispatch : σ → Event → σ) :
    Nat → σ → κ → Drained κ σ
  | 0, a, q => ⟨a, q, []⟩
  | fuel + 1, a, q =>
    match poll q with
    | (none, q1) => ⟨a, q1, [Call.SDL_PollEvent none]⟩
    | (some evt, q1) =>
      let r := drainWith poll dispatch fuel (dispatch a evt) q1
      ⟨r.app, r.queue, Call.SDL_PollEvent (some evt) :: r.calls⟩

/-- Modelled from the spec: the state of the library's event queue behind
`SDL_PollEvent`, whose code is in the SDL library and not in this repository.
Spec 4.3 has the drain "bounded by what is already enqueued at poll time — new
events arriving during drain are handled on a later iteration, never the same
one". So the queue keeps apart the events that were enqueued when the drain
in progress began (`current`) and those enqueued since (`later`); `draining`
says whether a drain is in progress (the last poll returned an event);
`arrivals` are the events that arrive before each of the following polls. -/
structure CycleQueue where
  current : List Event
  later : List Event
  draining : Bool
  arrivals : List (List Event)
  deriving DecidableEq, Repr

/-- Modelled from the spec: `SDL_PollEvent`, whose code is in the SDL library
and not in this repository, as spec 4.3 and 5 describe it. The poll never
blocks. The first poll of a drain takes everything enqueued at that time as the
events of this drain; a poll during a drain hands out the next of those, and
returns 0 when they are used up, which ends the drain; the events that arrive
while a drain is in progress are kept for a later drain. -/
def SDL_PollEvent_spec (q : CycleQueue) : Option Event × CycleQueue :=
  if q.draining then
    match q.current with
    | [] => (none, ⟨[], q.later ++ q.arrivals.headD [], false, q.arrivals.tail⟩)
    | e :: c => (some e, ⟨c, q.later ++ q.arrivals.headD [], true, q.arrivals.tail⟩)
  else
    match q.later ++ q.arrivals.headD [] with
    | [] => (none, ⟨[], [], false, q.arrivals.tail⟩)
    | e :: c => (some e, ⟨c, [], true, q.arrivals.tail⟩)

/-- The queue between two drains: `queue` holds the events enqueued so far, no
drain is in progress. -/
def CycleQueue.atDrainStart (queue : List Event) (arrivals : List (List Event)) :
    CycleQueue :=
  ⟨[], queue, false, arrivals⟩

/-- The drain over the poll of the specification, run to completion: it makes
at most one poll per event that is enqueued by its first poll, and one more. -/
def drainAllSpec {σ : Type} (dispatch : σ → Event → σ) (a : σ) (q : CycleQueue) :
    Drained CycleQueue σ :=
  drainWith SDL_PollEvent_spec dispatch
    (q.current.length + q.later.length + (q.arrivals.headD []).length + 1) a q

/-! # Theorems -/

/-! ## Event dispatch of example 02 -/

theorem ex02_dispatch_palette (a : Ex02.App) (e : Event) :
    (Ex02.dispatch a e).g.white = a.g.white ∧ (Ex02.dispatch a e).g.red = a.g.red ∧
    (Ex02.dispatch a e).g.yellow = a.g.yellow ∧ (Ex02.dispatch a e).g.green = a.g.green ∧
    (Ex02.dispatch a e).g.blue = a.g.blue := by
  unfold Ex02.dispatch Ex02.onKeyDown
  split_ifs <;> simp

theorem ex02_foldl_dispatch_palette (es : List Event) (a : Ex02.App) :
    (es.foldl Ex02.dispatch a).g.white = a.g.white ∧
    (es.foldl Ex02.dispatch a).g.red = a.g.red ∧
    (es.foldl Ex02.dispatch a).g.yellow = a.g.yellow ∧
    (es.foldl Ex02.dispatch a).g.green = a.g.green ∧
    (es.foldl Ex02.dispatch a).g.blue = a.g.blue := by
  induction es generalizing a with
  | nil => simp
  | cons e es ih =>
    have h := ex02_dispatch_palette a e
    have h2 := ih (Ex02.dispatch a e)
    simp only [List.foldl_cons]
    refine ⟨h2.1.trans h.1, h2.2.1.trans h.2.1, h2.2.2.1.trans h.2.2.1,
      h2.2.2.2.1.trans h.2.2.2.1, h2.2.2.2.2.trans h.2.2.2.2⟩

/-- A colour-affecting event assigns a colour that depends on the palette
only. -/
theorem ex02_dispatch_colour_of_affecting (a b : Ex02.App) (e : Event)
    (h : colourAffecting e = true)
    (hw : a.g.white = b.g.white) (hr : a.g.red = b.g.red) (hy : a.g.yellow = b.g.yellow)
    (hg : a.g.green = b.g.green) (hb : a.g.blue = b.g.blue) :
    (Ex02.dispatch a e).g.currentColor = (Ex02.dispatch b e).g.currentColor := by
  unfold colourAffecting at h
  unfold Ex02.dispatch Ex02.onKeyDown
  simp only [SDL_QUIT, SDL_KEYDOWN, SDL_KEYUP] at h ⊢
  split_ifs <;> simp_all

/-- An event that is not colour-affecting leaves `currentColor` alone. -/
theorem ex02_dispatch_colour_of_not_affecting (a : Ex02.App) (e : Event)
    (h : colourAffecting e = false) :
    (Ex02.dispatch a e).g.currentColor = a.g.currentColor := by
  unfold colourAffecting at h
  unfold Ex02.dispatch Ex02.onKeyDown
  simp only [SDL_QUIT, SDL_KEYDOWN, SDL_KEYUP] at h ⊢
  split_ifs <;> simp_all

/-- C1: dispatching one event in example 02. From every state, a key-down of
UP, RIGHT, DOWN, LEFT sets `currentColor` to red, yellow, green, blue and keeps
the quit flag; a key-up sets `currentColor` to white; a quit event sets the quit
flag and keeps `currentColor`; a key-down of another key, and an event of another
kind, leave the state unchanged. From (running, white) the sequence
[KeyDown(UP), KeyUp, Quit] gives red, then white, then the quit flag set. -/
theorem C1_dispatch_one_event (a : Ex02.App) :
    Ex02.dispatch a (keyDown SDLK_UP)
        = ⟨a.quit, { a.g with currentColor := a.g.red }⟩ ∧
    Ex02.dispatch a (keyDown SDLK_RIGHT)
        = ⟨a.quit, { a.g with currentColor := a.g.yellow }⟩ ∧
    Ex02.dispatch a (keyDown SDLK_DOWN)
        = ⟨a.quit, { a.g with currentColor := a.g.green }⟩ ∧
    Ex02.dispatch a (keyDown SDLK_LEFT)
        = ⟨a.quit, { a.g with currentColor := a.g.blue }⟩ ∧
    (∀ sym, Ex02.dispatch a (keyUp sym)
        = ⟨a.quit, { a.g with currentColor := a.g.white }⟩) ∧
    (∀ sym, Ex02.dispatch a ⟨SDL_QUIT, sym⟩ = ⟨true, a.g⟩) ∧
    (∀ sym, sym ≠ SDLK_UP → sym ≠ SDLK_RIGHT → sym ≠ SDLK_DOWN → sym ≠ SDLK_LEFT →
      Ex02.dispatch a (keyDown sym) = a) ∧
    (∀ e : Event, e.type ≠ SDL_QUIT → e.type ≠ SDL_KEYDOWN → e.type ≠ SDL_KEYUP →
      Ex02.dispatch a e = a) ∧
    (∀ sym,
      [keyDown SDLK_UP, keyUp sym, quitEvent].scanl Ex02.dispatch
          ⟨false, { a.g with currentColor := a.g.white }⟩
        = [⟨false, { a.g with currentColor := a.g.white }⟩,
           ⟨false, { a.g with currentColor := a.g.red }⟩,
           ⟨false, { a.g with currentColor := a.g.white }⟩,
           ⟨true, { a.g with currentColor := a.g.white }⟩]) := by
  refine ⟨?_, ?_, ?_, ?_, ?_, ?_, ?_, ?_, ?_⟩
  · simp [Ex02.dispatch, Ex02.onKeyDown, keyDown, SDL_QUIT, SDL_KEYDOWN]
  · simp [Ex02.dispatch, Ex02.onKeyDown, keyDown, SDL_QUIT, SDL_KEYDOWN, SDLK_UP, SDLK_RIGHT]
  · simp [Ex02.dispatch, Ex02.onKeyDown, keyDown, SDL_QUIT, SDL_KEYDOWN, SDLK_UP, SDLK_RIGHT,
      SDLK_DOWN]
  · simp [Ex02.dispatch, Ex02.onKeyDown, keyDown, SDL_QUIT, SDL_KEYDOWN, SDLK_UP, SDLK_RIGHT,
      SDLK_DOWN, SDLK_LEFT]
  · intro sym
    simp [Ex02.dispatch, keyUp, SDL_QUIT, SDL_KEYDOWN, SDL_KEYUP]
  · intro sym
    simp [Ex02.dispatch]
  · intro sym h1 h2 h3 h4
    simp [Ex02.dispatch, Ex02.onKeyDown, keyDown, SDL_QUIT, SDL_KEYDOWN, h1, h2, h3, h4]
  · intro e h1 h2 h3
    simp [Ex02.dispatch, h1, h2, h3]
  · intro sym
    simp [List.scanl, Ex02.dispatch, Ex02.onKeyDown, keyDown, keyUp, quitEvent, SDL_QUIT,
      SDL_KEYDOWN, SDL_KEYUP]

/-- The C1 theorem at a sample state: a key-down of the key `a` (code 97)
changes nothing. -/
theorem C1_dispatch_one_event_witness :
    Ex02.dispatch ⟨false, sampleGlobals⟩ (keyDown 97) = ⟨false, sampleGlobals⟩ :=
  (C1_dispatch_one_event ⟨false, sampleGlobals⟩).2.2.2.2.2.2.1 97
    (by decide) (by decide) (by decide) (by decide)

theorem ex02_foldl_dispatch_snoc_colour (es : List Event) (e : Event) (a : Ex02.App) :
    ((es ++ [e]).foldl Ex02.dispatch a).g.currentColor =
      if colourAffecting e then (Ex02.dispatch a e).g.currentColor
      else (es.foldl Ex02.dispatch a).g.currentColor := by
  rw [List.foldl_append, List.foldl_cons, List.foldl_nil]
  have hp := ex02_foldl_dispatch_palette es a
  by_cases h : colourAffecting e = true
  · rw [if_pos h]
    exact ex02_dispatch_colour_of_affecting _ _ e h hp.1 hp.2.1 hp.2.2.1 hp.2.2.2.1 hp.2.2.2.2
  · rw [if_neg h]
    exact ex02_dispatch_colour_of_not_affecting _ e (by simpa using h)

/-- C10: colour selection in example 02 is last-write-wins. After any sequence
of events dispatched from any state, `currentColor` is the colour that the last
colour-affecting event of the sequence (a key-down of UP, RIGHT, DOWN or LEFT,
or a key-up) assigns when dispatched alone from the initial state, and is the
initial colour when the sequence has no such event. [KeyDown(UP),
KeyDown(LEFT)] ends blue and [KeyDown(UP), KeyDown(LEFT), KeyUp] ends white. -/
theorem C10_last_write_wins (a : Ex02.App) (es : List Event) :
    (es.foldl Ex02.dispatch a).g.currentColor =
      (match lastColourAffecting es with
       | some e => (Ex02.dispatch a e).g.currentColor
       | none => a.g.currentColor) ∧
    ([keyDown SDLK_UP, keyDown SDLK_LEFT].foldl Ex02.dispatch a).g.currentColor = a.g.blue ∧
    (∀ sym, ([keyDown SDLK_UP, keyDown SDLK_LEFT, keyUp sym].foldl
      Ex02.dispatch a).g.currentColor = a.g.white) := by
  refine ⟨?_, ?_, ?_⟩
  · induction es using List.reverseRecOn with
    | nil => simp [lastColourAffecting]
    | append_singleton es e ih =>
      rw [ex02_foldl_dispatch_snoc_colour]
      by_cases h : colourAffecting e = true
      · simp [lastColourAffecting, h]
      · have h2 : lastColourAffecting (es ++ [e]) = lastColourAffecting es := by
          simp [lastColourAffecting, h]
        rw [if_neg h, h2, ih]
  · simp [Ex02.dispatch, Ex02.onKeyDown, keyDown, SDL_QUIT, SDL_KEYDOWN, SDLK_UP, SDLK_RIGHT,
      SDLK_DOWN, SDLK_LEFT]
  · intro sym
    simp [Ex02.dispatch, Ex02.onKeyDown, keyDown, keyUp, SDL_QUIT, SDL_KEYDOWN, SDL_KEYUP,
      SDLK_UP, SDLK_RIGHT, SDLK_DOWN, SDLK_LEFT]

/-! ## `close` -/

/-- C5: `close` is idempotent on the registry. In examples 02, 03 and 04, from
every state of the statics one call of `close` leaves every handle `NULL`; a
second call returns the same statics and makes only the subsystem shutdown
calls, so it destroys no handle. -/
theorem C5_close_idempotent :
    (∀ g : Ex02.Globals,
      (Ex02.close g).1.gWindow = none ∧
      (Ex02.close (Ex02.close g).1).1 = (Ex02.close g).1 ∧
      (Ex02.close (Ex02.close g).1).2 = [Call.SDL_Quit] ∧
      ∀ c ∈ (Ex02.close (Ex02.close g).1).2, isDestroy c = false) ∧
    (∀ g : Ex03.Globals,
      (Ex03.close g).1 = ⟨none, none, none⟩ ∧
      (Ex03.close (Ex03.close g).1).1 = (Ex03.close g).1 ∧
      (Ex03.close (Ex03.close g).1).2 = [Call.IMG_Quit, Call.SDL_Quit] ∧
      ∀ c ∈ (Ex03.close (Ex03.close g).1).2, isDestroy c = false) ∧
    (∀ g : Ex04.Globals,
      (Ex04.close g).1 = ⟨none, none, none, none⟩ ∧
      (Ex04.close (Ex04.close g).1).1 = (Ex04.close g).1 ∧
      (Ex04.close (Ex04.close g).1).2 = [Call.TTF_Quit, Call.SDL_Quit] ∧
      ∀ c ∈ (Ex04.close (Ex04.close g).1).2, isDestroy c = false) := by
  refine ⟨?_, ?_, ?_⟩
  · rintro ⟨w, s, c1, c2, c3, c4, c5, c6⟩
    cases w <;> simp [Ex02.close, isDestroy]
  · rintro ⟨w, r, t⟩
    cases w <;> cases r <;> cases t <;> simp [Ex03.close, isDestroy]
  · rintro ⟨w, r, t, f⟩
    cases w <;> cases r <;> cases t <;> cases f <;> simp [Ex04.close, isDestroy]

/-! ## What `init` does, case by case -/

/-- Case analysis of `init` of example 03 on the first call the library
refuses, with the statics and the calls of each case written out. -/
theorem ex03_init_elim (env : Env) (P : Bool × Ex03.Globals × List Call → Prop)
    (hSdl : env.sdlInit < 0 →
      P (false, ⟨none, none, none⟩, [Call.SDL_Init env.sdlInit, Call.SDL_Log]))
    (hImg : ¬ env.sdlInit < 0 → env.imgInit &&& IMG_INIT_PNG = 0 →
      P (false, ⟨none, none, none⟩,
        [Call.SDL_Init env.sdlInit, Call.IMG_Init env.imgInit, Call.SDL_Log,
         Call.IMG_Quit, Call.SDL_Quit]))
    (hWin : ¬ env.sdlInit < 0 → ¬ env.imgInit &&& IMG_INIT_PNG = 0 →
      env.createWindow = none →
      P (false, ⟨none, none, none⟩,
        [Call.SDL_Init env.sdlInit, Call.IMG_Init env.imgInit, Call.SDL_CreateWindow none,
         Call.SDL_Log, Call.IMG_Quit, Call.SDL_Quit]))
    (hRen : ∀ w, ¬ env.sdlInit < 0 → ¬ env.imgInit &&& IMG_INIT_PNG = 0 →
      env.createWindow = some w → env.createRenderer = none →
      P (false, ⟨none, none, none⟩,
        [Call.SDL_Init env.sdlInit, Call.IMG_Init env.imgInit,
         Call.SDL_CreateWindow (some w), Call.SDL_CreateRenderer (some w) none,
         Call.SDL_Log, Call.SDL_DestroyWindow (some w), Call.IMG_Quit, Call.SDL_Quit]))
    (hLoad : ∀ w r, ¬ env.sdlInit < 0 → ¬ env.imgInit &&& IMG_INIT_PNG = 0 →
      env.createWindow = some w → env.createRenderer = some r → env.imgLoad = none →
      P (false, ⟨none, none, none⟩,
        [Call.SDL_Init env.sdlInit, Call.IMG_Init env.imgInit,
         Call.SDL_CreateWindow (some w), Call.SDL_CreateRenderer (some w) (some r),
         Call.SDL_SetRenderDrawColor (some r), Call.IMG_Load none, Call.SDL_Log,
         Call.SDL_DestroyRenderer (some r), Call.SDL_DestroyWindow (some w),
         Call.IMG_Quit, Call.SDL_Quit]))
    (hTex : ∀ w r s, ¬ env.sdlInit < 0 → ¬ env.imgInit &&& IMG_INIT_PNG = 0 →
      env.createWindow = some w → env.createRenderer = some r → env.imgLoad = some s →
      env.createTexture = none →
      P (false, ⟨none, none, none⟩,
        [Call.SDL_Init env.sdlInit, Call.IMG_Init env.imgInit,
         Call.SDL_CreateWindow (some w), Call.SDL_CreateRenderer (some w) (some r),
         Call.SDL_SetRenderDrawColor (some r), Call.IMG_Load (some s),
         Call.SDL_CreateTextureFromSurface (some r) (some s) none,
         Call.SDL_FreeSurface (some s), Call.SDL_Log,
         Call.SDL_DestroyRenderer (some r), Call.SDL_DestroyWindow (some w),
         Call.IMG_Quit, Call.SDL_Quit]))
    (hOk : ∀ w r s t, ¬ env.sdlInit < 0 → ¬ env.imgInit &&& IMG_INIT_PNG = 0 →
      env.createWindow = some w → env.createRenderer = some r → env.imgLoad = some s →
      env.createTexture = some t →
      P (true, ⟨some w, some r, some t⟩,
        [Call.SDL_Init env.sdlInit, Call.IMG_Init env.imgInit,
         Call.SDL_CreateWindow (some w), Call.SDL_CreateRenderer (some w) (some r),
         Call.SDL_SetRenderDrawColor (some r), Call.IMG_Load (some s),
         Call.SDL_CreateTextureFromSurface (some r) (some s) (some t),
         Call.SDL_FreeSurface (some s)])) :
    P (Ex03.init env Ex03.Globals.initial) := by
  by_cases h1 : env.sdlInit < 0
  · have := hSdl h1
    simpa [Ex03.init, Ex03.Globals.initial, h1] using this
  by_cases h2 : env.imgInit &&& IMG_INIT_PNG = 0
  · have := hImg h1 h2
    simpa [Ex03.init, Ex03.close, Ex03.Globals.initial, h1, h2] using this
  cases h3 : env.createWindow with
  | none =>
    have := hWin h1 h2 h3
    simpa [Ex03.init, Ex03.close, Ex03.Globals.initial, h1, h2, h3] using this
  | some w =>
    cases h4 : env.createRenderer with
    | none =>
      have := hRen w h1 h2 h3 h4
      simpa [Ex03.init, Ex03.close, Ex03.Globals.initial, h1, h2, h3, h4] using this
    | some r =>
      cases h5 : env.imgLoad with
      | none =>
        have := hLoad w r h1 h2 h3 h4 h5
        simpa [Ex03.init, Ex03.loadTexture, Ex03.close, Ex03.Globals.initial, h1, h2, h3, h4,
          h5] using this
      | some s =>
        cases h6 : env.createTexture with
        | none =>
          have := hTex w r s h1 h2 h3 h4 h5 h6
          simpa [Ex03.init, Ex03.loadTexture, Ex03.close, Ex03.Globals.initial, h1, h2, h3,
            h4, h5, h6] using this
        | some t =>
          have := hOk w r s t h1 h2 h3 h4 h5 h6
          simpa [Ex03.init, Ex03.loadTexture, Ex03.close, Ex03.Globals.initial, h1, h2, h3,
            h4, h5, h6] using this

/-- Case analysis of `init` of example 04 on the first call the library
refuses, with the statics and the calls of each case written out. -/
theorem ex04_init_elim (env : Env) (P : Bool × Ex04.Globals × List Call → Prop)
    (hSdl : env.sdlInit < 0 →
      P (false, ⟨none, none, none, none⟩, [Call.SDL_Init env.sdlInit, Call.SDL_Log]))
    (hTtf : ¬ env.sdlInit < 0 → env.ttfInit < 0 →
      P (false, ⟨none, none, none, none⟩,
        [Call.SDL_Init env.sdlInit, Call.TTF_Init env.ttfInit, Call.SDL_Log,
         Call.TTF_Quit, Call.SDL_Quit]))
    (hWin : ¬ env.sdlInit < 0 → ¬ env.ttfInit < 0 → env.createWindow = none →
      P (false, ⟨none, none, none, none⟩,
        [Call.SDL_Init env.sdlInit, Call.TTF_Init env.ttfInit, Call.SDL_CreateWindow none,
         Call.SDL_Log, Call.TTF_Quit, Call.SDL_Quit]))
    (hRen : ∀ w, ¬ env.sdlInit < 0 → ¬ env.ttfInit < 0 →
      env.createWindow = some w → env.createRenderer = none →
      P (false, ⟨none, none, none, none⟩,
        [Call.SDL_Init env.sdlInit, Call.TTF_Init env.ttfInit,
         Call.SDL_CreateWindow (some w), Call.SDL_CreateRenderer (some w) none,
         Call.SDL_Log, Call.SDL_DestroyWindow (some w), Call.TTF_Quit, Call.SDL_Quit]))
    (hFont : ∀ w r, ¬ env.sdlInit < 0 → ¬ env.ttfInit < 0 →
      env.createWindow = some w → env.createRenderer = some r → env.openFont = none →
      P (false, ⟨none, none, none, none⟩,
        [Call.SDL_Init env.sdlInit, Call.TTF_Init env.ttfInit,
         Call.SDL_CreateWindow (some w), Call.SDL_CreateRenderer (some w) (some r),
         Call.SDL_SetRenderDrawColor (some r), Call.TTF_OpenFont none, Call.SDL_Log,
         Call.SDL_DestroyRenderer (some r), Call.SDL_DestroyWindow (some w),
         Call.TTF_Quit, Call.SDL_Quit]))
    (hText : ∀ w r f, ¬ env.sdlInit < 0 → ¬ env.ttfInit < 0 →
      env.createWindow = some w → env.createRenderer = some r → env.openFont = some f →
      env.renderText = none →
      P (false, ⟨none, none, none, none⟩,
        [Call.SDL_Init env.sdlInit, Call.TTF_Init env.ttfInit,
         Call.SDL_CreateWindow (some w), Call.SDL_CreateRenderer (some w) (some r),
         Call.SDL_SetRenderDrawColor (some r), Call.TTF_OpenFont (some f),
         Call.TTF_RenderText_Solid (some f) none, Call.SDL_Log,
         Call.TTF_CloseFont (some f),
         Call.SDL_DestroyRenderer (some r), Call.SDL_DestroyWindow (some w),
         Call.TTF_Quit, Call.SDL_Quit]))
    (hTex : ∀ w r f s, ¬ env.sdlInit < 0 → ¬ env.ttfInit < 0 →
      env.createWindow = some w → env.createRenderer = some r → env.openFont = some f →
      env.renderText = some s → env.createTexture = none →
      P (false, ⟨none, none, none, none⟩,
        [Call.SDL_Init env.sdlInit, Call.TTF_Init env.ttfInit,
         Call.SDL_CreateWindow (some w), Call.SDL_CreateRenderer (some w) (some r),
         Call.SDL_SetRenderDrawColor (some r), Call.TTF_OpenFont (some f),
         Call.TTF_RenderText_Solid (some f) (some s),
         Call.SDL_CreateTextureFromSurface (some r) (some s) none,
         Call.SDL_FreeSurface (some s), Call.SDL_Log,
         Call.TTF_CloseFont (some f),
         Call.SDL_DestroyRenderer (some r), Call.SDL_DestroyWindow (some w),
         Call.TTF_Quit, Call.SDL_Quit]))
    (hOk : ∀ w r f s t, ¬ env.sdlInit < 0 → ¬ env.ttfInit < 0 →
      env.createWindow = some w → env.createRenderer = some r → env.openFont = some f →
      env.renderText = some s → env.createTexture = some t →
      P (true, ⟨some w, some r, some t, some f⟩,
        [Call.SDL_Init env.sdlInit, Call.TTF_Init env.ttfInit,
         Call.SDL_CreateWindow (some w), Call.SDL_CreateRenderer (some w) (some r),
         Call.SDL_SetRenderDrawColor (some r), Call.TTF_OpenFont (some f),
         Call.TTF_RenderText_Solid (some f) (some s),
         Call.SDL_CreateTextureFromSurface (some r) (some s) (some t),
         Call.SDL_FreeSurface (some s)])) :
    P (Ex04.init env Ex04.Globals.initial) := by
  by_cases h1 : env.sdlInit < 0
  · have := hSdl h1
    simpa [Ex04.init, Ex04.Globals.initial, h1] using this
  by_cases h2 : env.ttfInit < 0
  · have := hTtf h1 h2
    simpa [Ex04.init, Ex04.close, Ex04.Globals.initial, h1, h2] using this
  cases h3 : env.createWindow with
  | none =>
    have := hWin h1 h2 h3
    simpa [Ex04.init, Ex04.close, Ex04.Globals.initial, h1, h2, h3] using this
  | some w =>
    cases h4 : env.createRenderer with
    | none =>
      have := hRen w h1 h2 h3 h4
      simpa [Ex04.init, Ex04.close, Ex04.Globals.initial, h1, h2, h3, h4] using this
    | some r =>
      cases h5 : env.openFont with
      | none =>
        have := hFont w r h1 h2 h3 h4 h5
        simpa [Ex04.init, Ex04.close, Ex04.Globals.initial, h1, h2, h3, h4, h5] using this
      | some f =>
        cases h6 : env.renderText with
        | none =>
          have := hText w r f h1 h2 h3 h4 h5 h6
          simpa [Ex04.init, Ex04.createTextureFromText, Ex04.close, Ex04.Globals.initial,
            h1, h2, h3, h4, h5, h6] using this
        | some s =>
          cases h7 : env.createTexture with
          | none =>
            have := hTex w r f s h1 h2 h3 h4 h5 h6 h7
            simpa [Ex04.init, Ex04.createTextureFromText, Ex04.close, Ex04.Globals.initial,
              h1, h2, h3, h4, h5, h6, h7] using this
          | some t =>
            have := hOk w r f s t h1 h2 h3 h4 h5 h6 h7
            simpa [Ex04.init, Ex04.createTextureFromText, Ex04.close, Ex04.Globals.initial,
              h1, h2, h3, h4, h5, h6, h7] using this

/-- Case analysis of `init` of example 02 on the first call the library
refuses, with the statics and the calls of each case written out. -/
theorem ex02_init_elim (env : Env) (P : Ex02.InitResult → Prop)
    (hSdl : env.sdlInit < 0 →
      P ⟨some false, Ex02.Globals.initial, [Call.SDL_Init env.sdlInit, Call.SDL_Log]⟩)
    (hWin : ¬ env.sdlInit < 0 → env.createWindow = none →
      P ⟨some false, Ex02.Globals.initial,
        [Call.SDL_Init env.sdlInit, Call.SDL_CreateWindow none, Call.SDL_Log,
         Call.SDL_Quit]⟩)
    (hSurf : ∀ w, ¬ env.sdlInit < 0 → env.createWindow = some w →
      env.getWindowSurface = none →
      P ⟨none, ⟨some w, none, 0, 0, 0, 0, 0, 0⟩,
        [Call.SDL_Init env.sdlInit, Call.SDL_CreateWindow (some w),
         Call.SDL_GetWindowSurface (some w) none, Call.deref_format none]⟩)
    (hOk : ∀ w s, ¬ env.sdlInit < 0 → env.createWindow = some w →
      env.getWindowSurface = some s →
      P ⟨some true,
        ⟨some w, some s, env.mapRGB 0xFF 0xFF 0xFF, env.mapRGB 0xFF 0x00 0x00,
          env.mapRGB 0xFF 0xFF 0x00, env.mapRGB 0x00 0xFF 0x00, env.mapRGB 0x00 0x00 0xFF,
          env.mapRGB 0xFF 0xFF 0xFF⟩,
        [Call.SDL_Init env.sdlInit, Call.SDL_CreateWindow (some w),
         Call.SDL_GetWindowSurface (some w) (some s),
         Call.deref_format (some s), Call.SDL_MapRGB 0xFF 0xFF 0xFF,
         Call.deref_format (some s), Call.SDL_MapRGB 0xFF 0x00 0x00,
         Call.deref_format (some s), Call.SDL_MapRGB 0xFF 0xFF 0x00,
         Call.deref_format (some s), Call.SDL_MapRGB 0x00 0xFF 0x00,
         Call.deref_format (some s), Call.SDL_MapRGB 0x00 0x00 0xFF]⟩) :
    P (Ex02.init env Ex02.Globals.initial) := by
  by_cases h1 : env.sdlInit < 0
  · have := hSdl h1
    simpa [Ex02.init, h1] using this
  cases h2 : env.createWindow with
  | none =>
    have := hWin h1 h2
    simpa [Ex02.init, Ex02.Globals.initial, h1, h2] using this
  | some w =>
    cases h3 : env.getWindowSurface with
    | none =>
      have := hSurf w h1 h2 h3
      simpa [Ex02.init, Ex02.Globals.initial, h1, h2, h3] using this
    | some s =>
      have := hOk w s h1 h2 h3
      simpa [Ex02.init, Ex02.Globals.initial, h1, h2, h3] using this

/-! ## Exit codes -/

theorem ex03_init_false_of_firstFailure (env : Env) (s : InitStep)
    (h : Ex03.firstFailure env = some s) : (Ex03.init env Ex03.Globals.initial).1 = false := by
  apply ex03_init_elim env (fun r => r.1 = false)
  case hOk =>
    intro w r s t h1 h2 h3 h4 h5 h6
    simp [Ex03.firstFailure, h1, h2, h3, h4, h5, h6] at h
  all_goals intros; rfl

theorem ex04_init_false_of_firstFailure (env : Env) (s : InitStep)
    (h : Ex04.firstFailure env = some s) : (Ex04.init env Ex04.Globals.initial).1 = false := by
  apply ex04_init_elim env (fun r => r.1 = false)
  case hOk =>
    intro w r f s t h1 h2 h3 h4 h5 h6 h7
    simp [Ex04.firstFailure, h1, h2, h3, h4, h5, h6, h7] at h
  all_goals intros; rfl

theorem ex02_init_false_of_firstFailure (env : Env) (s : InitStep)
    (h : Ex02.firstFailure env = some s) :
    (Ex02.init env Ex02.Globals.initial).ret = some false := by
  apply ex02_init_elim env (fun r => r.ret = some false)
  case hOk =>
    intro w s h1 h2 h3
    simp [Ex02.firstFailure, h1, h2] at h
  case hSurf =>
    intro w h1 h2 h3
    simp [Ex02.firstFailure, h1, h2] at h
  all_goals intros; rfl

/-- C3, as stated, fails in example 03: a run in which window creation is
refused and a run in which renderer creation is refused fail at different
initializer steps, and `main` returns the same exit code, -1, in both. -/
theorem C3_counterexample :
    Ex03.firstFailure (failingEnv InitStep.window) = some InitStep.window ∧
    Ex03.firstFailure (failingEnv InitStep.renderer) = some InitStep.renderer ∧
    (Ex03.main (failingEnv InitStep.window) 0).map Run.exit = some (Exit.code (-1)) ∧
    (Ex03.main (failingEnv InitStep.renderer) 0).map Run.exit = some (Exit.code (-1)) ∧
    ¬ ((Ex03.main (failingEnv InitStep.window) 0).map Run.exit ≠
       (Ex03.main (failingEnv InitStep.renderer) 0).map Run.exit) := by
  decide

/-- C3 amended: in example 01 the exit code identifies the failing step (-1
when `SDL_Init` fails, -2 when window creation fails); in examples 02, 03 and 04
`main` returns the single non-zero code -1 when `init` fails, whichever
initializer step failed, without entering the main loop. -/
theorem C3_exit_codes (env : Env) (fuel : Nat) :
    (env.sdlInit < 0 → (Ex01.main env).exit = Exit.code (-1)) ∧
    (¬ env.sdlInit < 0 → env.createWindow = none → (Ex01.main env).exit = Exit.code (-2)) ∧
    (∀ s, Ex02.firstFailure env = some s →
      Ex02.main env fuel
        = some ⟨Exit.code (-1), (Ex02.init env Ex02.Globals.initial).calls⟩) ∧
    (∀ s, Ex03.firstFailure env = some s →
      Ex03.main env fuel
        = some ⟨Exit.code (-1), (Ex03.init env Ex03.Globals.initial).2.2⟩) ∧
    (∀ s, Ex04.firstFailure env = some s →
      Ex04.main env fuel
        = some ⟨Exit.code (-1), (Ex04.init env Ex04.Globals.initial).2.2⟩) := by
  refine ⟨?_, ?_, ?_, ?_, ?_⟩
  · intro h
    simp [Ex01.main, h]
  · intro h1 h2
    simp [Ex01.main, h1, h2]
  · intro s h
    have := ex02_init_false_of_firstFailure env s h
    simp [Ex02.main, this]
  · intro s h
    have := ex03_init_false_of_firstFailure env s h
    simp [Ex03.main, this]
  · intro s h
    have := ex04_init_false_of_firstFailure env s h
    simp [Ex04.main, this]

/-- The amended C3 at sample inputs: example 01 returns -1 and -2 for its two
failing steps, and example 04 returns -1 both when the font and when the
texture is refused. -/
theorem C3_exit_codes_witness :
    (Ex01.main (failingEnv InitStep.subsystem)).exit = Exit.code (-1) ∧
    (Ex01.main (failingEnv InitStep.window)).exit = Exit.code (-2) ∧
    (Ex04.main (failingEnv InitStep.font) 5).map Run.exit = some (Exit.code (-1)) ∧
    (Ex04.main (failingEnv InitStep.texture) 5).map Run.exit = some (Exit.code (-1)) :=
  ⟨(C3_exit_codes (failingEnv InitStep.subsystem) 0).1 (by decide),
   (C3_exit_codes (failingEnv InitStep.window) 0).2.1 (by decide) (by decide),
   by rw [(C3_exit_codes (failingEnv InitStep.font) 5).2.2.2.2 InitStep.font (by decide)]; rfl,
   by rw [(C3_exit_codes (failingEnv InitStep.texture) 5).2.2.2.2 InitStep.texture
     (by decide)]; rfl⟩

/-! ## Failure of `init` -/

/-- C2: a failed `init` leaves nothing live. In examples 02, 03 and 04, when
the library refuses at any initializer step (`firstFailure env = some step`),
`init` returns `false`, every handle of the statics is `NULL`, nothing acquired
is still held (each handle and each subsystem acquired before the failing step
has been released, after it was acquired), every resource acquired has been
released exactly once, and `main` returns -1 with exactly the calls of `init`. -/
theorem C2_failed_init_leaves_nothing_live (env : Env) (step : InitStep) (fuel : Nat) :
    (Ex02.firstFailure env = some step →
      (Ex02.init env Ex02.Globals.initial).ret = some false ∧
      (Ex02.init env Ex02.Globals.initial).g = Ex02.Globals.initial ∧
      held (Ex02.init env Ex02.Globals.initial).calls = [] ∧
      (∀ x ∈ acquisitions (Ex02.init env Ex02.Globals.initial).calls,
        (releases (Ex02.init env Ex02.Globals.initial).calls).count x = 1) ∧
      Ex02.main env fuel
        = some ⟨Exit.code (-1), (Ex02.init env Ex02.Globals.initial).calls⟩) ∧
    (Ex03.firstFailure env = some step →
      (Ex03.init env Ex03.Globals.initial).1 = false ∧
      (Ex03.init env Ex03.Globals.initial).2.1 = ⟨none, none, none⟩ ∧
      held (Ex03.init env Ex03.Globals.initial).2.2 = [] ∧
      (∀ x ∈ acquisitions (Ex03.init env Ex03.Globals.initial).2.2,
        (releases (Ex03.init env Ex03.Globals.initial).2.2).count x = 1) ∧
      Ex03.main env fuel
        = some ⟨Exit.code (-1), (Ex03.init env Ex03.Globals.initial).2.2⟩) ∧
    (Ex04.firstFailure env = some step →
      (Ex04.init env Ex04.Globals.initial).1 = false ∧
      (Ex04.init env Ex04.Globals.initial).2.1 = ⟨none, none, none, none⟩ ∧
      held (Ex04.init env Ex04.Globals.initial).2.2 = [] ∧
      (∀ x ∈ acquisitions (Ex04.init env Ex04.Globals.initial).2.2,
        (releases (Ex04.init env Ex04.Globals.initial).2.2).count x = 1) ∧
      Ex04.main env fuel
        = some ⟨Exit.code (-1), (Ex04.init env Ex04.Globals.initial).2.2⟩) := by
  refine ⟨?_, ?_, ?_⟩
  · intro h
    have hf := ex02_init_false_of_firstFailure env step h
    refine ⟨hf, ?_, ?_, ?_, by simp [Ex02.main, hf]⟩
    · revert hf
      apply ex02_init_elim env (fun r => r.ret = some false → r.g = Ex02.Globals.initial)
      all_goals intros; simp_all
    · revert hf
      apply ex02_init_elim env (fun r => r.ret = some false → held r.calls = [])
      case hSdl => intro h1 _; simp [held, holdStep, released, acquired, h1]
      case hWin => intro h1 h2 _; simp [held, holdStep, released, acquired, h1]
      all_goals intros; simp_all
    · revert hf
      intro hf x hx
      have key : (acquisitions (Ex02.init env Ex02.Globals.initial).calls).all
          (fun x => decide ((releases (Ex02.init env Ex02.Globals.initial).calls).count x
            = 1)) = true := by
        revert hf
        apply ex02_init_elim env (fun r => r.ret = some false →
          (acquisitions r.calls).all (fun x => decide ((releases r.calls).count x = 1)) = true)
        case hSdl => intro h1 _; simp [acquisitions, releases, released, acquired, h1]
        case hWin => intro h1 h2 _; simp [acquisitions, releases, released, acquired, h1]
        all_goals intros; simp_all
      simpa using List.all_eq_true.mp key x hx
  · intro h
    have hf := ex03_init_false_of_firstFailure env step h
    refine ⟨hf, ?_, ?_, ?_, by simp [Ex03.main, hf]⟩
    · revert hf
      apply ex03_init_elim env (fun r => r.1 = false → r.2.1 = ⟨none, none, none⟩)
      all_goals intros; simp_all
    · revert hf
      apply ex03_init_elim env (fun r => r.1 = false → held r.2.2 = [])
      case hOk => intros; simp_all
      all_goals intros; simp [held, holdStep, released, acquired, *]
    · revert hf
      intro hf x hx
      have key : (acquisitions (Ex03.init env Ex03.Globals.initial).2.2).all
          (fun x => decide ((releases (Ex03.init env Ex03.Globals.initial).2.2).count x
            = 1)) = true := by
        revert hf
        apply ex03_init_elim env (fun r => r.1 = false →
          (acquisitions r.2.2).all (fun x => decide ((releases r.2.2).count x = 1)) = true)
        case hOk => intros; simp_all
        all_goals intros; simp [acquisitions, releases, released, acquired, *]
      simpa using List.all_eq_true.mp key x hx
  · intro h
    have hf := ex04_init_false_of_firstFailure env step h
    refine ⟨hf, ?_, ?_, ?_, by simp [Ex04.main, hf]⟩
    · revert hf
      apply ex04_init_elim env (fun r => r.1 = false → r.2.1 = ⟨none, none, none, none⟩)
      all_goals intros; simp_all
    · revert hf
      apply ex04_init_elim env (fun r => r.1 = false → held r.2.2 = [])
      case hOk => intros; simp_all
      all_goals intros; simp [held, holdStep, released, acquired, *]
    · revert hf
      intro hf x hx
      have key : (acquisitions (Ex04.init env Ex04.Globals.initial).2.2).all
          (fun x => decide ((releases (Ex04.init env Ex04.Globals.initial).2.2).count x
            = 1)) = true := by
        revert hf
        apply ex04_init_elim env (fun r => r.1 = false →
          (acquisitions r.2.2).all (fun x => decide ((releases r.2.2).count x = 1)) = true)
        case hOk => intros; simp_all
        all_goals intros; simp [acquisitions, releases, released, acquired, *]
      simpa using List.all_eq_true.mp key x hx

/-- The C2 theorem for a missing image file in example 03: `init` fails at the
asset load, after the window and the renderer were created. -/
theorem C2_failed_init_leaves_nothing_live_witness :
    (Ex03.init (failingEnv InitStep.assetLoad) Ex03.Globals.initial).1 = false ∧
    (Ex03.init (failingEnv InitStep.assetLoad) Ex03.Globals.initial).2.1
      = ⟨none, none, none⟩ ∧
    held (Ex03.init (failingEnv InitStep.assetLoad) Ex03.Globals.initial).2.2 = [] ∧
    (∀ x ∈ acquisitions (Ex03.init (failingEnv InitStep.assetLoad) Ex03.Globals.initial).2.2,
      (releases (Ex03.init (failingEnv InitStep.assetLoad)
        Ex03.Globals.initial).2.2).count x = 1) ∧
    Ex03.main (failingEnv InitStep.assetLoad) 7
      = some ⟨Exit.code (-1),
          (Ex03.init (failingEnv InitStep.assetLoad) Ex03.Globals.initial).2.2⟩ :=
  (C2_failed_init_leaves_nothing_live (failingEnv InitStep.assetLoad) InitStep.assetLoad 7).2.1
    (by decide)

/-- Every initializer step of each example can be the one that fails, and the
calls of example 03 with a missing image file are as listed. -/
theorem failingEnv_firstFailure :
    (∀ s ∈ [InitStep.subsystem, InitStep.window],
      Ex02.firstFailure (failingEnv s) = some s) ∧
    (∀ s ∈ [InitStep.subsystem, InitStep.extension, InitStep.window, InitStep.renderer,
        InitStep.assetLoad, InitStep.texture],
      Ex03.firstFailure (failingEnv s) = some s) ∧
    (∀ s, Ex04.firstFailure (failingEnv s) = some s) ∧
    (Ex03.init (failingEnv InitStep.assetLoad) Ex03.Globals.initial).2.2 =
      [Call.SDL_Init 0, Call.IMG_Init 2, Call.SDL_CreateWindow (some 1),
       Call.SDL_CreateRenderer (some 1) (some 3), Call.SDL_SetRenderDrawColor (some 3),
       Call.IMG_Load none, Call.SDL_Log, Call.SDL_DestroyRenderer (some 3),
       Call.SDL_DestroyWindow (some 1), Call.IMG_Quit, Call.SDL_Quit] := by
  refine ⟨by decide, by decide, ?_, by decide⟩
  intro s
  cases s <;> decide

/-! ## The event loop -/

section LoopLemmas
variable {σ : Type}

theorem SDL_PollEvent_pending (ps ps1 : PollState) (e : Event)
    (h : SDL_PollEvent ps = (some e, ps1)) : ps1.pending + 1 = ps.pending := by
  obtain ⟨q, arr⟩ := ps
  unfold SDL_PollEvent at h
  split at h
  · simp at h
  · rename_i x q1 hq
    simp only [Prod.mk.injEq, Option.some.injEq] at h
    obtain ⟨-, rfl⟩ := h
    have hl := congrArg List.length hq
    cases arr with
    | nil =>
      simp at hl
      simp [PollState.pending, hl]
    | cons b bs =>
      simp at hl
      simp only [PollState.pending, List.tail_cons, List.map_cons, List.sum_cons]
      omega

theorem drain_succ_none (d : σ → Event → σ) (n : Nat) (a : σ) (ps ps1 : PollState)
    (h : SDL_PollEvent ps = (none, ps1)) :
    drain d (n + 1) a ps = ⟨a, ps1, [Call.SDL_PollEvent none]⟩ := by
  simp [drain, h]

theorem drain_succ_some (d : σ → Event → σ) (n : Nat) (a : σ) (ps ps1 : PollState)
    (e : Event) (h : SDL_PollEvent ps = (some e, ps1)) :
    drain d (n + 1) a ps =
      ⟨(drain d n (d a e) ps1).app, (drain d n (d a e) ps1).ps,
        Call.SDL_PollEvent (some e) :: (drain d n (d a e) ps1).calls⟩ := by
  simp [drain, h]

/-- The drain makes no call but polls. -/
theorem drain_calls_isPoll (d : σ → Event → σ) (n : Nat) (a : σ) (ps : PollState) :
    ∀ c ∈ (drain d n a ps).calls, isPoll c = true := by
  induction n generalizing a ps with
  | zero => simp [drain]
  | succ n ih =>
    rcases h : SDL_PollEvent ps with ⟨_ | e, ps1⟩
    · rw [drain_succ_none d n a ps ps1 h]
      simp [isPoll]
    · rw [drain_succ_some d n a ps ps1 e h]
      intro c hc
      rcases List.mem_cons.mp hc with rfl | hc
      · rfl
      · exact ih _ _ c hc

/-- The state after the drain is the fold of `dispatch` over the events the
polls returned. -/
theorem drain_app (d : σ → Event → σ) (n : Nat) (a : σ) (ps : PollState) :
    (drain d n a ps).app = (dispatched (drain d n a ps).calls).foldl d a := by
  induction n generalizing a ps with
  | zero => simp [drain, dispatched]
  | succ n ih =>
    rcases h : SDL_PollEvent ps with ⟨_ | e, ps1⟩
    · rw [drain_succ_none d n a ps ps1 h]
      simp [dispatched]
    · rw [drain_succ_some d n a ps ps1 e h]
      simp only [dispatched, List.filterMap_cons, List.foldl_cons]
      exact ih _ _

/-- With more fuel than pending events the drain reaches the poll that returns
0: its calls are the polls that returned an event followed by that last poll. -/
theorem drain_calls_complete (d : σ → Event → σ) (n : Nat) (a : σ) (ps : PollState)
    (hn : ps.pending < n) :
    (drain d n a ps).calls =
      (dispatched (drain d n a ps).calls).map (fun e => Call.SDL_PollEvent (some e))
        ++ [Call.SDL_PollEvent none] := by
  induction n generalizing a ps with
  | zero => omega
  | succ n ih =>
    rcases h : SDL_PollEvent ps with ⟨_ | e, ps1⟩
    · rw [drain_succ_none d n a ps ps1 h]
      simp [dispatched]
    · rw [drain_succ_some d n a ps ps1 e h]
      have hp := SDL_PollEvent_pending ps ps1 e h
      have := ih (d a e) ps1 (by omega)
      simp only [dispatched, List.filterMap_cons, List.map_cons, List.cons_append] at this ⊢
      rw [← this]

/-- With more fuel than pending events the result of the drain does not depend
on the fuel. -/
theorem drain_fuel_irrelevant (d : σ → Event → σ) (n m : Nat) (a : σ) (ps : PollState)
    (hn : ps.pending < n) (hm : ps.pending < m) : drain d n a ps = drain d m a ps := by
  induction n generalizing a ps m with
  | zero => omega
  | succ n ih =>
    cases m with
    | zero => omega
    | succ m =>
      rcases h : SDL_PollEvent ps with ⟨_ | e, ps1⟩
      · rw [drain_succ_none d n a ps ps1 h, drain_succ_none d m a ps ps1 h]
      · have hp := SDL_PollEvent_pending ps ps1 e h
        rw [drain_succ_some d n a ps ps1 e h, drain_succ_some d m a ps ps1 e h,
          ih m (d a e) ps1 (by omega) (by omega)]

end LoopLemmas

section QueueLemmas
variable {σ : Type}

theorem SDL_PollEvent_none (ps ps1 : PollState) (h : SDL_PollEvent ps = (none, ps1)) :
    ps.queue ++ ps.arrivals.headD [] = [] := by
  unfold SDL_PollEvent at h
  split at h
  · assumption
  · simp at h

theorem SDL_PollEvent_some (ps ps1 : PollState) (e : Event)
    (h : SDL_PollEvent ps = (some e, ps1)) :
    ps.queue ++ ps.arrivals.headD [] = e :: ps1.queue ∧ ps1.arrivals = ps.arrivals.tail := by
  unfold SDL_PollEvent at h
  split at h
  · simp at h
  · rename_i x q1 hq
    simp only [Prod.mk.injEq, Option.some.injEq] at h
    obtain ⟨rfl, rfl⟩ := h
    exact ⟨hq, rfl⟩

theorem flatten_headD_tail (arr : List (List Event)) :
    arr.flatten = arr.headD [] ++ arr.tail.flatten := by
  cases arr <;> simp

/-- The events the drain dispatches are an initial segment of the events queued
followed by the events that arrive, and the segment covers at least the events
queued when the drain began. -/
theorem drain_dispatched_take (d : σ → Event → σ) (n : Nat) (a : σ) (ps : PollState)
    (hn : ps.pending < n) :
    ∃ k, dispatched (drain d n a ps).calls = (ps.queue ++ ps.arrivals.flatten).take k ∧
      (ps.queue ++ ps.arrivals.headD []).length ≤ k := by
  induction n generalizing a ps with
  | zero => omega
  | succ n ih =>
    rcases h : SDL_PollEvent ps with ⟨_ | e, ps1⟩
    · rw [drain_succ_none d n a ps ps1 h]
      refine ⟨0, by simp [dispatched], ?_⟩
      rw [SDL_PollEvent_none ps ps1 h]
      simp
    · rw [drain_succ_some d n a ps ps1 e h]
      have hp := SDL_PollEvent_pending ps ps1 e h
      obtain ⟨hq, ha⟩ := SDL_PollEvent_some ps ps1 e h
      obtain ⟨k, hk, hle⟩ := ih (d a e) ps1 (by omega)
      refine ⟨k + 1, ?_, ?_⟩
      · have : dispatched (Call.SDL_PollEvent (some e) :: (drain d n (d a e) ps1).calls)
            = e :: dispatched (drain d n (d a e) ps1).calls := by
          simp [dispatched]
        rw [this, hk, flatten_headD_tail ps.arrivals, ← List.append_assoc, hq, ha]
        simp
      · rw [hq]
        simp only [List.length_append, List.length_cons] at hle ⊢
        omega

/-- When nothing arrives after the drain has begun, the drain dispatches exactly
the events queued when it began. -/
theorem drain_dispatched_quiet (d : σ → Event → σ) (n : Nat) (a : σ) (ps : PollState)
    (hn : ps.pending < n) (hquiet : ∀ b ∈ ps.arrivals.tail, b = []) :
    dispatched (drain d n a ps).calls = ps.queue ++ ps.arrivals.headD [] := by
  induction n generalizing a ps with
  | zero => omega
  | succ n ih =>
    rcases h : SDL_PollEvent ps with ⟨_ | e, ps1⟩
    · rw [drain_succ_none d n a ps ps1 h, SDL_PollEvent_none ps ps1 h]
      simp [dispatched]
    · rw [drain_succ_some d n a ps ps1 e h]
      have hp := SDL_PollEvent_pending ps ps1 e h
      obtain ⟨hq, ha⟩ := SDL_PollEvent_some ps ps1 e h
      have hq1 : ∀ b ∈ ps1.arrivals.tail, b = [] := by
        intro b hb
        rw [ha] at hb
        exact hquiet b (List.mem_of_mem_tail hb)
      have hh : ps1.arrivals.headD [] = [] := by
        rw [ha]
        cases ht : ps.arrivals.tail with
        | nil => rfl
        | cons b bs => exact hquiet b (by simp [ht])
      have := ih (d a e) ps1 (by omega) hq1
      rw [hh, List.append_nil] at this
      have hd : dispatched (Call.SDL_PollEvent (some e) :: (drain d n (d a e) ps1).calls)
          = e :: dispatched (drain d n (d a e) ps1).calls := by
        simp [dispatched]
      rw [hd, this, hq]

end QueueLemmas

/-- The loop itself places no bound on a drain: when the library makes an
event available to the second poll of a drain, the drain dispatches it as well.
Here one key-down can be handed out at the first poll and a quit event at the
second; the drain of example 02 dispatches both. -/
theorem drain_dispatches_what_each_poll_returns :
    dispatched (iteration Ex02.dispatch Ex02.redraw ⟨false, sampleGlobals⟩
      ⟨[keyDown SDLK_UP], [[], [quitEvent]]⟩).calls = [keyDown SDLK_UP, quitEvent] := by
  decide

section WhileLemmas
variable {σ : Type}

theorem dispatched_append (xs ys : List Call) :
    dispatched (xs ++ ys) = dispatched xs ++ dispatched ys := by
  simp [dispatched]

theorem presents_append (xs ys : List Call) :
    presents (xs ++ ys) = presents xs + presents ys := by
  simp [presents]

theorem presents_of_isPoll (xs : List Call) (h : ∀ c ∈ xs, isPoll c = true) :
    presents xs = 0 := by
  unfold presents
  rw [List.countP_eq_zero]
  intro c hc
  have := h c hc
  cases c <;> simp_all [isPoll, isPresent]

theorem whileNotQuit_of_quit (d : σ → Event → σ) (q : σ → Bool) (rd : σ → List Call)
    (n : Nat) (a : σ) (ps : PollState) (h : q a = true) :
    whileNotQuit d q rd n a ps = ⟨a, ps, []⟩ := by
  cases n <;> simp [whileNotQuit, h]

theorem whileNotQuit_succ (d : σ → Event → σ) (q : σ → Bool) (rd : σ → List Call)
    (n : Nat) (a : σ) (ps : PollState) (h : q a = false) :
    whileNotQuit d q rd (n + 1) a ps =
      ⟨(whileNotQuit d q rd n (iteration d rd a ps).app (iteration d rd a ps).ps).app,
       (whileNotQuit d q rd n (iteration d rd a ps).app (iteration d rd a ps).ps).ps,
       (iteration d rd a ps).calls ++
         (whileNotQuit d q rd n (iteration d rd a ps).app (iteration d rd a ps).ps).calls⟩ := by
  simp [whileNotQuit, h]

/-- Once the loop has exited, more fuel changes nothing: no further iteration
is run. -/
theorem whileNotQuit_stable (d : σ → Event → σ) (q : σ → Bool) (rd : σ → List Call)
    (n k : Nat) (a : σ) (ps : PollState)
    (h : q (whileNotQuit d q rd n a ps).app = true) :
    whileNotQuit d q rd (n + k) a ps = whileNotQuit d q rd n a ps := by
  induction n generalizing a ps with
  | zero =>
    have ha : q a = true := by simpa [whileNotQuit] using h
    rw [whileNotQuit_of_quit d q rd _ a ps ha, whileNotQuit_of_quit d q rd _ a ps ha]
  | succ n ih =>
    cases ha : q a with
    | true =>
      rw [whileNotQuit_of_quit d q rd _ a ps ha, whileNotQuit_of_quit d q rd _ a ps ha]
    | false =>
      rw [whileNotQuit_succ d q rd n a ps ha] at h
      rw [show n + 1 + k = (n + k) + 1 by omega, whileNotQuit_succ d q rd (n + k) a ps ha,
        whileNotQuit_succ d q rd n a ps ha, ih _ _ h]

theorem drain_invariant {β : Type} (f : σ → β) (d : σ → Event → σ)
    (hf : ∀ a e, f (d a e) = f a) (n : Nat) (a : σ) (ps : PollState) :
    f (drain d n a ps).app = f a := by
  rw [drain_app]
  generalize dispatched (drain d n a ps).calls = es
  induction es generalizing a with
  | nil => rfl
  | cons e es ih => rw [List.foldl_cons, ih, hf]

theorem whileNotQuit_invariant {β : Type} (f : σ → β) (d : σ → Event → σ) (q : σ → Bool)
    (rd : σ → List Call) (hf : ∀ a e, f (d a e) = f a) (n : Nat) (a : σ) (ps : PollState) :
    f (whileNotQuit d q rd n a ps).app = f a := by
  induction n generalizing a ps with
  | zero => rfl
  | succ n ih =>
    cases ha : q a with
    | true => rw [whileNotQuit_of_quit d q rd _ a ps ha]
    | false =>
      rw [whileNotQuit_succ d q rd n a ps ha]
      simp only
      rw [ih]
      exact drain_invariant f d hf _ a ps

/-- An iteration presents as many frames as its redraw does. -/
theorem presents_iteration (d : σ → Event → σ) (rd : σ → List Call) (a : σ)
    (ps : PollState) :
    presents (iteration d rd a ps).calls = presents (rd (iteration d rd a ps).app) := by
  simp only [iteration, presents_append]
  have h0 : presents (drainAll d a ps).calls = 0 :=
    presents_of_isPoll _ (drain_calls_isPoll d _ a ps)
  rw [h0, Nat.zero_add]

/-- When every redraw presents one frame, the loop presents one frame per
iteration run. -/
theorem presents_whileNotQuit (d : σ → Event → σ) (q : σ → Bool) (rd : σ → List Call)
    (hrd : ∀ a, presents (rd a) = 1) (n : Nat) (a : σ) (ps : PollState) :
    presents (whileNotQuit d q rd n a ps).calls = iterationsRun d q rd n a ps := by
  induction n generalizing a ps with
  | zero => rfl
  | succ n ih =>
    cases ha : q a with
    | true => simp [whileNotQuit_of_quit d q rd _ a ps ha, iterationsRun, ha, presents]
    | false =>
      rw [whileNotQuit_succ d q rd n a ps ha]
      simp only [presents_append, iterationsRun, ha, presents_iteration, hrd, ih]
      simp

/-- With nothing queued and nothing arriving, the drain dispatches nothing and
the queue stays empty. -/
theorem drainAll_idle (d : σ → Event → σ) (a : σ) (ps : PollState) (h : ps.pending = 0) :
    (drainAll d a ps).app = a ∧ (drainAll d a ps).ps.pending = 0 ∧
    (drainAll d a ps).calls = [Call.SDL_PollEvent none] := by
  unfold drainAll
  rw [h]
  rcases hp : SDL_PollEvent ps with ⟨_ | e, ps1⟩
  · rw [drain_succ_none d 0 a ps ps1 hp]
    refine ⟨rfl, ?_, rfl⟩
    obtain ⟨q, arr⟩ := ps
    unfold SDL_PollEvent at hp
    split at hp
    · simp only [Prod.mk.injEq] at hp
      obtain ⟨-, rfl⟩ := hp
      simp only [PollState.pending, Nat.add_eq_zero] at h
      cases arr with
      | nil => simp [PollState.pending]
      | cons b bs =>
        simp only [List.map_cons, List.sum_cons, Nat.add_eq_zero] at h
        simp [PollState.pending, h.2.2]
    · simp at hp
  · have := SDL_PollEvent_pending ps ps1 e hp
    omega

/-- With nothing queued and nothing arriving, and the quit flag not set by the
redraw, `n` units of fuel run exactly `n` iterations. -/
theorem iterationsRun_idle (d : σ → Event → σ) (q : σ → Bool) (rd : σ → List Call)
    (n : Nat) (a : σ) (ps : PollState) (h : ps.pending = 0) (ha : q a = false) :
    iterationsRun d q rd n a ps = n := by
  induction n generalizing ps with
  | zero => rfl
  | succ n ih =>
    obtain ⟨h1, h2, -⟩ := drainAll_idle d a ps h
    simp only [iterationsRun, ha, iteration]
    rw [h1, ih _ h2]
    simp
    omega

end WhileLemmas

/-! ## Redraws -/

theorem ex02_presents_redraw (a : Ex02.App) : presents (Ex02.redraw a) = 1 := by
  simp [Ex02.redraw, presents, isPresent]

theorem ex03_presents_redraw (a : Ex03.App) : presents (Ex03.redraw a) = 1 := by
  simp [Ex03.redraw, presents, isPresent]

theorem ex04_presents_redraw (a : Ex04.App) : presents (Ex04.redraw a) = 1 := by
  simp [Ex04.redraw, presents, isPresent]

theorem ex02_presents_init (env : Env) :
    presents (Ex02.init env Ex02.Globals.initial).calls = 0 := by
  apply ex02_init_elim env (fun r => presents r.calls = 0)
  all_goals intros; simp [presents, isPresent]

theorem ex03_presents_init (env : Env) :
    presents (Ex03.init env Ex03.Globals.initial).2.2 = 0 := by
  apply ex03_init_elim env (fun r => presents r.2.2 = 0)
  all_goals intros; simp [presents, isPresent]

theorem ex04_presents_init (env : Env) :
    presents (Ex04.init env Ex04.Globals.initial).2.2 = 0 := by
  apply ex04_init_elim env (fun r => presents r.2.2 = 0)
  all_goals intros; simp [presents, isPresent]

theorem ex02_presents_close (g : Ex02.Globals) : presents (Ex02.close g).2 = 0 := by
  obtain ⟨w, s, c1, c2, c3, c4, c5, c6⟩ := g
  cases w <;> simp [Ex02.close, presents, isPresent]

theorem ex03_presents_close (g : Ex03.Globals) : presents (Ex03.close g).2 = 0 := by
  obtain ⟨w, r, t⟩ := g
  cases w <;> cases r <;> cases t <;> simp [Ex03.close, presents, isPresent]

theorem ex04_presents_close (g : Ex04.Globals) : presents (Ex04.close g).2 = 0 := by
  obtain ⟨w, r, t, f⟩ := g
  cases w <;> cases r <;> cases t <;> cases f <;> simp [Ex04.close, presents, isPresent]

/-- C6: one redraw per iteration of the main loop. In examples 02, 03 and 04
an iteration presents exactly one frame whatever the event queue holds; from a
state that has not quit, with nothing queued and nothing arriving, `N`
iterations present exactly `N` frames; the frames presented by the loop are as
many as the iterations run; and the frames presented by a whole run of `main`
are as many as the iterations of its loop (none when `init` fails). -/
theorem C6_one_redraw_per_iteration :
    ((∀ a ps, presents (iteration Ex02.dispatch Ex02.redraw a ps).calls = 1) ∧
     (∀ N a ps, Ex02.App.quit a = false → ps.pending = 0 →
       iterationsRun Ex02.dispatch Ex02.App.quit Ex02.redraw N a ps = N ∧
       presents (whileNotQuit Ex02.dispatch Ex02.App.quit Ex02.redraw N a ps).calls = N) ∧
     (∀ fuel a ps,
       presents (whileNotQuit Ex02.dispatch Ex02.App.quit Ex02.redraw fuel a ps).calls
         = iterationsRun Ex02.dispatch Ex02.App.quit Ex02.redraw fuel a ps) ∧
     (∀ env fuel run, Ex02.main env fuel = some run →
       presents run.calls =
         if (Ex02.init env Ex02.Globals.initial).ret = some true then
           iterationsRun Ex02.dispatch Ex02.App.quit Ex02.redraw fuel
             ⟨false, (Ex02.init env Ex02.Globals.initial).g⟩ env.events
         else 0)) ∧
    ((∀ a ps, presents (iteration Ex03.dispatch Ex03.redraw a ps).calls = 1) ∧
     (∀ N a ps, Ex03.App.quit a = false → ps.pending = 0 →
       iterationsRun Ex03.dispatch Ex03.App.quit Ex03.redraw N a ps = N ∧
       presents (whileNotQuit Ex03.dispatch Ex03.App.quit Ex03.redraw N a ps).calls = N) ∧
     (∀ fuel a ps,
       presents (whileNotQuit Ex03.dispatch Ex03.App.quit Ex03.redraw fuel a ps).calls
         = iterationsRun Ex03.dispatch Ex03.App.quit Ex03.redraw fuel a ps) ∧
     (∀ env fuel run, Ex03.main env fuel = some run →
       presents run.calls =
         if (Ex03.init env Ex03.Globals.initial).1 = true then
           iterationsRun Ex03.dispatch Ex03.App.quit Ex03.redraw fuel
             ⟨false, (Ex03.init env Ex03.Globals.initial).2.1⟩ env.events
         else 0)) ∧
    ((∀ a ps, presents (iteration Ex04.dispatch Ex04.redraw a ps).calls = 1) ∧
     (∀ N a ps, Ex04.App.quit a = false → ps.pending = 0 →
       iterationsRun Ex04.dispatch Ex04.App.quit Ex04.redraw N a ps = N ∧
       presents (whileNotQuit Ex04.dispatch Ex04.App.quit Ex04.redraw N a ps).calls = N) ∧
     (∀ fuel a ps,
       presents (whileNotQuit Ex04.dispatch Ex04.App.quit Ex04.redraw fuel a ps).calls
         = iterationsRun Ex04.dispatch Ex04.App.quit Ex04.redraw fuel a ps) ∧
     (∀ env fuel run, Ex04.main env fuel = some run →
       presents run.calls =
         if (Ex04.init env Ex04.Globals.initial).1 = true then
           iterationsRun Ex04.dispatch Ex04.App.quit Ex04.redraw fuel
             ⟨false, (Ex04.init env Ex04.Globals.initial).2.1⟩ env.events
         else 0)) := by
  refine ⟨⟨?_, ?_, ?_, ?_⟩, ⟨?_, ?_, ?_, ?_⟩, ⟨?_, ?_, ?_, ?_⟩⟩
  · intro a ps
    rw [presents_iteration, ex02_presents_redraw]
  · intro N a ps ha hp
    have h := iterationsRun_idle Ex02.dispatch Ex02.App.quit Ex02.redraw N a ps hp ha
    exact ⟨h, by rw [presents_whileNotQuit _ _ _ ex02_presents_redraw, h]⟩
  · intro fuel a ps
    exact presents_whileNotQuit _ _ _ ex02_presents_redraw fuel a ps
  · intro env fuel run h
    unfold Ex02.main at h
    simp only at h
    rcases hi : (Ex02.init env Ex02.Globals.initial).ret with _ | _ | _
    · rw [hi] at h
      simp only [Option.some.injEq] at h
      subst h
      simp [ex02_presents_init]
    · rw [hi] at h
      simp only [Option.some.injEq] at h
      subst h
      simp [ex02_presents_init]
    · rw [hi] at h
      simp only at h
      split at h
      · simp only [Option.some.injEq] at h
        subst h
        simp [presents_append, ex02_presents_init, ex02_presents_close,
          presents_whileNotQuit _ _ _ ex02_presents_redraw]
      · simp at h
  · intro a ps
    rw [presents_iteration, ex03_presents_redraw]
  · intro N a ps ha hp
    have h := iterationsRun_idle Ex03.dispatch Ex03.App.quit Ex03.redraw N a ps hp ha
    exact ⟨h, by rw [presents_whileNotQuit _ _ _ ex03_presents_redraw, h]⟩
  · intro fuel a ps
    exact presents_whileNotQuit _ _ _ ex03_presents_redraw fuel a ps
  · intro env fuel run h
    unfold Ex03.main at h
    simp only at h
    cases hi : (Ex03.init env Ex03.Globals.initial).1 with
    | false =>
      rw [hi] at h
      simp only [Bool.not_false, if_true, Option.some.injEq] at h
      subst h
      simp [ex03_presents_init]
    | true =>
      rw [hi] at h
      simp only [Bool.not_true, Bool.false_eq_true, if_false] at h
      split at h
      · simp only [Option.some.injEq] at h
        subst h
        simp [presents_append, ex03_presents_init, ex03_presents_close,
          presents_whileNotQuit _ _ _ ex03_presents_redraw]
      · simp at h
  · intro a ps
    rw [presents_iteration, ex04_presents_redraw]
  · intro N a ps ha hp
    have h := iterationsRun_idle Ex04.dispatch Ex04.App.quit Ex04.redraw N a ps hp ha
    exact ⟨h, by rw [presents_whileNotQuit _ _ _ ex04_presents_redraw, h]⟩
  · intro fuel a ps
    exact presents_whileNotQuit _ _ _ ex04_presents_redraw fuel a ps
  · intro env fuel run h
    unfold Ex04.main at h
    simp only at h
    cases hi : (Ex04.init env Ex04.Globals.initial).1 with
    | false =>
      rw [hi] at h
      simp only [Bool.not_false, if_true, Option.some.injEq] at h
      subst h
      simp [ex04_presents_init]
    | true =>
      rw [hi] at h
      simp only [Bool.not_true, Bool.false_eq_true, if_false] at h
      split at h
      · simp only [Option.some.injEq] at h
        subst h
        simp [presents_append, ex04_presents_init, ex04_presents_close,
          presents_whileNotQuit _ _ _ ex04_presents_redraw]
      · simp at h

/-- The C6 theorem at sample inputs: four idle iterations of example 03 present
four frames, and a run of example 02 whose quit event arrives at the third
poll presents three frames. -/
theorem C6_one_redraw_per_iteration_witness :
    presents (whileNotQuit Ex03.dispatch Ex03.App.quit Ex03.redraw 4
      ⟨false, ⟨some 1, some 3, some 6⟩⟩ ⟨[], []⟩).calls = 4 ∧
    presents
      ([Call.SDL_Init 0, Call.SDL_CreateWindow (some 1),
        Call.SDL_GetWindowSurface (some 1) (some 2),
        Call.deref_format (some 2), Call.SDL_MapRGB 0xFF 0xFF 0xFF,
        Call.deref_format (some 2), Call.SDL_MapRGB 0xFF 0x00 0x00,
        Call.deref_format (some 2), Call.SDL_MapRGB 0xFF 0xFF 0x00,
        Call.deref_format (some 2), Call.SDL_MapRGB 0x00 0xFF 0x00,
        Call.deref_format (some 2), Call.SDL_MapRGB 0x00 0x00 0xFF,
        Call.SDL_PollEvent none,
        Call.SDL_FillRect (some 2) 0xFFFFFF, Call.SDL_UpdateWindowSurface (some 1),
        Call.SDL_PollEvent none,
        Call.SDL_FillRect (some 2) 0xFFFFFF, Call.SDL_UpdateWindowSurface (some 1),
        Call.SDL_PollEvent (some quitEvent), Call.SDL_PollEvent none,
        Call.SDL_FillRect (some 2) 0xFFFFFF, Call.SDL_UpdateWindowSurface (some 1),
        Call.SDL_DestroyWindow (some 1), Call.SDL_Quit] : List Call) = 3 :=
  ⟨(C6_one_redraw_per_iteration.2.1.2.1 4 ⟨false, ⟨some 1, some 3, some 6⟩⟩ ⟨[], []⟩
      rfl rfl).2,
   (C6_one_redraw_per_iteration.1.2.2.2 (goodEnv ⟨[], [[], [], [quitEvent]]⟩) 5
      ⟨Exit.code 0,
       [Call.SDL_Init 0, Call.SDL_CreateWindow (some 1),
        Call.SDL_GetWindowSurface (some 1) (some 2),
        Call.deref_format (some 2), Call.SDL_MapRGB 0xFF 0xFF 0xFF,
        Call.deref_format (some 2), Call.SDL_MapRGB 0xFF 0x00 0x00,
        Call.deref_format (some 2), Call.SDL_MapRGB 0xFF 0xFF 0x00,
        Call.deref_format (some 2), Call.SDL_MapRGB 0x00 0xFF 0x00,
        Call.deref_format (some 2), Call.SDL_MapRGB 0x00 0x00 0xFF,
        Call.SDL_PollEvent none,
        Call.SDL_FillRect (some 2) 0xFFFFFF, Call.SDL_UpdateWindowSurface (some 1),
        Call.SDL_PollEvent none,
        Call.SDL_FillRect (some 2) 0xFFFFFF, Call.SDL_UpdateWindowSurface (some 1),
        Call.SDL_PollEvent (some quitEvent), Call.SDL_PollEvent none,
        Call.SDL_FillRect (some 2) 0xFFFFFF, Call.SDL_UpdateWindowSurface (some 1),
        Call.SDL_DestroyWindow (some 1), Call.SDL_Quit]⟩
      (by decide)).trans (by decide)⟩

/-! ## Quitting -/

section QuitLemmas
variable {σ : Type}

theorem foldl_quit_of_quit (d : σ → Event → σ) (q : σ → Bool)
    (hmono : ∀ a e, q a = true → q (d a e) = true) (es : List Event) (a : σ)
    (h : q a = true) : q (es.foldl d a) = true := by
  induction es generalizing a with
  | nil => exact h
  | cons e es ih => exact ih _ (hmono a e h)

theorem foldl_quit_of_mem (d : σ → Event → σ) (q : σ → Bool)
    (hmono : ∀ a e, q a = true → q (d a e) = true)
    (hquit : ∀ a e, e.type = SDL_QUIT → q (d a e) = true) (es : List Event) (a : σ)
    (h : ∃ e ∈ es, e.type = SDL_QUIT) : q (es.foldl d a) = true := by
  induction es generalizing a with
  | nil => simp at h
  | cons x es ih =>
    obtain ⟨e, he, ht⟩ := h
    rcases List.mem_cons.mp he with rfl | he
    · exact foldl_quit_of_quit d q hmono es _ (hquit a e ht)
    · exact ih _ ⟨e, he, ht⟩

/-- The calls of one iteration: the polls that returned an event, the poll that
returned 0, then the redraw. -/
theorem iteration_calls (d : σ → Event → σ) (rd : σ → List Call) (a : σ) (ps : PollState) :
    (iteration d rd a ps).calls =
      (dispatched (drainAll d a ps).calls).map (fun e => Call.SDL_PollEvent (some e))
        ++ [Call.SDL_PollEvent none] ++ rd (iteration d rd a ps).app := by
  have h : (drainAll d a ps).calls =
      (dispatched (drainAll d a ps).calls).map (fun e => Call.SDL_PollEvent (some e))
        ++ [Call.SDL_PollEvent none] :=
    drain_calls_complete d _ a ps (Nat.lt_succ_self ps.pending)
  simp only [iteration]
  rw [← h]

theorem dispatched_iteration (d : σ → Event → σ) (rd : σ → List Call)
    (hrd : ∀ a, dispatched (rd a) = []) (a : σ) (ps : PollState) :
    dispatched (iteration d rd a ps).calls = dispatched (drainAll d a ps).calls := by
  simp [iteration, dispatched_append, hrd]

theorem iteration_quit (d : σ → Event → σ) (q : σ → Bool) (rd : σ → List Call)
    (hmono : ∀ a e, q a = true → q (d a e) = true)
    (hquit : ∀ a e, e.type = SDL_QUIT → q (d a e) = true)
    (hrd : ∀ a, dispatched (rd a) = []) (a : σ) (ps : PollState)
    (h : ∃ e ∈ dispatched (iteration d rd a ps).calls, e.type = SDL_QUIT) :
    q (iteration d rd a ps).app = true := by
  rw [dispatched_iteration d rd hrd] at h
  have : (iteration d rd a ps).app = (drainAll d a ps).app := rfl
  rw [this]
  unfold drainAll at h ⊢
  rw [drain_app]
  exact foldl_quit_of_mem d q hmono hquit _ a h

/-- When the loop has dispatched a quit event, the loop has exited, and after
the poll that returned a quit event in its last iteration the loop made only
the remaining polls of that drain, the poll that returned 0, and one redraw. -/
theorem whileNotQuit_after_quit (d : σ → Event → σ) (q : σ → Bool) (rd : σ → List Call)
    (hmono : ∀ a e, q a = true → q (d a e) = true)
    (hquit : ∀ a e, e.type = SDL_QUIT → q (d a e) = true)
    (hrd : ∀ a, dispatched (rd a) = []) (n : Nat) (a : σ) (ps : PollState)
    (h : ∃ e ∈ dispatched (whileNotQuit d q rd n a ps).calls, e.type = SDL_QUIT) :
    q (whileNotQuit d q rd n a ps).app = true ∧
    ∃ (pre : List Call) (e : Event) (es : List Event), e.type = SDL_QUIT ∧
      (whileNotQuit d q rd n a ps).calls =
        pre ++ Call.SDL_PollEvent (some e) ::
          (es.map (fun x => Call.SDL_PollEvent (some x)) ++ [Call.SDL_PollEvent none]
            ++ rd (whileNotQuit d q rd n a ps).app) := by
  induction n generalizing a ps with
  | zero => simp [whileNotQuit, dispatched] at h
  | succ n ih =>
    cases ha : q a with
    | true =>
      rw [whileNotQuit_of_quit d q rd _ a ps ha] at h
      simp [dispatched] at h
    | false =>
      rw [whileNotQuit_succ d q rd n a ps ha] at h ⊢
      simp only [dispatched_append] at h
      simp only
      by_cases hi : ∃ e ∈ dispatched (iteration d rd a ps).calls, e.type = SDL_QUIT
      · have hqi := iteration_quit d q rd hmono hquit hrd a ps hi
        rw [whileNotQuit_of_quit d q rd n _ _ hqi]
        refine ⟨hqi, ?_⟩
        rw [dispatched_iteration d rd hrd] at hi
        obtain ⟨e, he, ht⟩ := hi
        obtain ⟨s, t, hst⟩ := List.append_of_mem he
        refine ⟨s.map (fun x => Call.SDL_PollEvent (some x)), e, t, ht, ?_⟩
        rw [List.append_nil, iteration_calls, hst]
        simp
      · have hr : ∃ e ∈ dispatched (whileNotQuit d q rd n (iteration d rd a ps).app
            (iteration d rd a ps).ps).calls, e.type = SDL_QUIT := by
          obtain ⟨e, he, ht⟩ := h
          rcases List.mem_append.mp he with he | he
          · exact absurd ⟨e, he, ht⟩ hi
          · exact ⟨e, he, ht⟩
        obtain ⟨hq, pre, e, es, ht, hc⟩ := ih _ _ hr
        refine ⟨hq, (iteration d rd a ps).calls ++ pre, e, es, ht, ?_⟩
        rw [hc]
        simp only [List.append_assoc]

end QuitLemmas

theorem ex02_dispatch_quit_mono (a : Ex02.App) (e : Event) (h : a.quit = true) :
    (Ex02.dispatch a e).quit = true := by
  unfold Ex02.dispatch
  split_ifs <;> simp_all

theorem ex02_dispatch_quit_event (a : Ex02.App) (e : Event) (h : e.type = SDL_QUIT) :
    (Ex02.dispatch a e).quit = true := by
  simp [Ex02.dispatch, h]

theorem ex02_dispatched_redraw (a : Ex02.App) : dispatched (Ex02.redraw a) = [] := by
  simp [Ex02.redraw, dispatched]

theorem ex03_dispatch_quit_mono (a : Ex03.App) (e : Event) (h : a.quit = true) :
    (Ex03.dispatch a e).quit = true := by
  unfold Ex03.dispatch
  split_ifs <;> simp_all

theorem ex03_dispatch_quit_event (a : Ex03.App) (e : Event) (h : e.type = SDL_QUIT) :
    (Ex03.dispatch a e).quit = true := by
  simp [Ex03.dispatch, h]

theorem ex03_dispatched_redraw (a : Ex03.App) : dispatched (Ex03.redraw a) = [] := by
  simp [Ex03.redraw, dispatched]

theorem ex04_dispatch_quit_mono (a : Ex04.App) (e : Event) (h : a.quit = true) :
    (Ex04.dispatch a e).quit = true := by
  unfold Ex04.dispatch
  split_ifs <;> simp_all

theorem ex04_dispatch_quit_event (a : Ex04.App) (e : Event) (h : e.type = SDL_QUIT) :
    (Ex04.dispatch a e).quit = true := by
  simp [Ex04.dispatch, h]

theorem ex04_dispatched_redraw (a : Ex04.App) : dispatched (Ex04.redraw a) = [] := by
  simp [Ex04.redraw, dispatched]

/-- C8: once a quit event has been dispatched the loop stops without a further
iteration. In examples 02, 03 and 04: no event dispatched after the quit flag
is set clears it; an iteration whose drain dispatches a quit event ends with the
flag set, after completing its drain (the poll that returns 0) and its one
redraw, and from its final state the loop makes no further call whatever fuel
is left; and when the main loop of a run has dispatched a quit event, `main`
returns 0 after the calls of `init`, of the loop and of `close`, the loop made
nothing after the poll that returned the quit event but the remaining polls of
that drain and one redraw, and more fuel gives the same run. -/
theorem C8_quit_stops_the_loop :
    ((∀ (a : Ex02.App) (es : List Event), a.quit = true →
       (es.foldl Ex02.dispatch a).quit = true) ∧
     (∀ a ps,
       (∃ e ∈ dispatched (iteration Ex02.dispatch Ex02.redraw a ps).calls, e.type = SDL_QUIT) →
       (iteration Ex02.dispatch Ex02.redraw a ps).app.quit = true ∧
       (iteration Ex02.dispatch Ex02.redraw a ps).calls =
         (dispatched (iteration Ex02.dispatch Ex02.redraw a ps).calls).map
             (fun e => Call.SDL_PollEvent (some e))
           ++ [Call.SDL_PollEvent none]
           ++ Ex02.redraw (iteration Ex02.dispatch Ex02.redraw a ps).app ∧
       ∀ fuel, whileNotQuit Ex02.dispatch Ex02.App.quit Ex02.redraw fuel
           (iteration Ex02.dispatch Ex02.redraw a ps).app
           (iteration Ex02.dispatch Ex02.redraw a ps).ps
         = ⟨(iteration Ex02.dispatch Ex02.redraw a ps).app,
            (iteration Ex02.dispatch Ex02.redraw a ps).ps, []⟩) ∧
     (∀ env fuel, (Ex02.init env Ex02.Globals.initial).ret = some true →
       (∃ e ∈ dispatched (Ex02.mainLoop env fuel).calls, e.type = SDL_QUIT) →
       Ex02.main env fuel = some ⟨Exit.code 0,
         (Ex02.init env Ex02.Globals.initial).calls ++ (Ex02.mainLoop env fuel).calls
           ++ (Ex02.close (Ex02.mainLoop env fuel).app.g).2⟩ ∧
       (∃ (pre : List Call) (e : Event) (es : List Event), e.type = SDL_QUIT ∧
         (Ex02.mainLoop env fuel).calls =
           pre ++ Call.SDL_PollEvent (some e) ::
             (es.map (fun x => Call.SDL_PollEvent (some x)) ++ [Call.SDL_PollEvent none]
               ++ Ex02.redraw (Ex02.mainLoop env fuel).app)) ∧
       ∀ k, Ex02.main env (fuel + k) = Ex02.main env fuel)) ∧
    ((∀ (a : Ex03.App) (es : List Event), a.quit = true →
       (es.foldl Ex03.dispatch a).quit = true) ∧
     (∀ a ps,
       (∃ e ∈ dispatched (iteration Ex03.dispatch Ex03.redraw a ps).calls, e.type = SDL_QUIT) →
       (iteration Ex03.dispatch Ex03.redraw a ps).app.quit = true ∧
       (iteration Ex03.dispatch Ex03.redraw a ps).calls =
         (dispatched (iteration Ex03.dispatch Ex03.redraw a ps).calls).map
             (fun e => Call.SDL_PollEvent (some e))
           ++ [Call.SDL_PollEvent none]
           ++ Ex03.redraw (iteration Ex03.dispatch Ex03.redraw a ps).app ∧
       ∀ fuel, whileNotQuit Ex03.dispatch Ex03.App.quit Ex03.redraw fuel
           (iteration Ex03.dispatch Ex03.redraw a ps).app
           (iteration Ex03.dispatch Ex03.redraw a ps).ps
         = ⟨(iteration Ex03.dispatch Ex03.redraw a ps).app,
            (iteration Ex03.dispatch Ex03.redraw a ps).ps, []⟩) ∧
     (∀ env fuel, (Ex03.init env Ex03.Globals.initial).1 = true →
       (∃ e ∈ dispatched (Ex03.mainLoop env fuel).calls, e.type = SDL_QUIT) →
       Ex03.main env fuel = some ⟨Exit.code 0,
         (Ex03.init env Ex03.Globals.initial).2.2 ++ (Ex03.mainLoop env fuel).calls
           ++ (Ex03.close (Ex03.mainLoop env fuel).app.g).2⟩ ∧
       (∃ (pre : List Call) (e : Event) (es : List Event), e.type = SDL_QUIT ∧
         (Ex03.mainLoop env fuel).calls =
           pre ++ Call.SDL_PollEvent (some e) ::
             (es.map (fun x => Call.SDL_PollEvent (some x)) ++ [Call.SDL_PollEvent none]
               ++ Ex03.redraw (Ex03.mainLoop env fuel).app)) ∧
       ∀ k, Ex03.main env (fuel + k) = Ex03.main env fuel)) ∧
    ((∀ (a : Ex04.App) (es : List Event), a.quit = true →
       (es.foldl Ex04.dispatch a).quit = true) ∧
     (∀ a ps,
       (∃ e ∈ dispatched (iteration Ex04.dispatch Ex04.redraw a ps).calls, e.type = SDL_QUIT) →
       (iteration Ex04.dispatch Ex04.redraw a ps).app.quit = true ∧
       (iteration Ex04.dispatch Ex04.redraw a ps).calls =
         (dispatched (iteration Ex04.dispatch Ex04.redraw a ps).calls).map
             (fun e => Call.SDL_PollEvent (some e))
           ++ [Call.SDL_PollEvent none]
           ++ Ex04.redraw (iteration Ex04.dispatch Ex04.redraw a ps).app ∧
       ∀ fuel, whileNotQuit Ex04.dispatch Ex04.App.quit Ex04.redraw fuel
           (iteration Ex04.dispatch Ex04.redraw a ps).app
           (iteration Ex04.dispatch Ex04.redraw a ps).ps
         = ⟨(iteration Ex04.dispatch Ex04.redraw a ps).app,
            (iteration Ex04.dispatch Ex04.redraw a ps).ps, []⟩) ∧
     (∀ env fuel, (Ex04.init env Ex04.Globals.initial).1 = true →
       (∃ e ∈ dispatched (Ex04.mainLoop env fuel).calls, e.type = SDL_QUIT) →
       Ex04.main env fuel = some ⟨Exit.code 0,
         (Ex04.init env Ex04.Globals.initial).2.2 ++ (Ex04.mainLoop env fuel).calls
           ++ (Ex04.close (Ex04.mainLoop env fuel).app.g).2⟩ ∧
       (∃ (pre : List Call) (e : Event) (es : List Event), e.type = SDL_QUIT ∧
         (Ex04.mainLoop env fuel).calls =
           pre ++ Call.SDL_PollEvent (some e) ::
             (es.map (fun x => Call.SDL_PollEvent (some x)) ++ [Call.SDL_PollEvent none]
               ++ Ex04.redraw (Ex04.mainLoop env fuel).app)) ∧
       ∀ k, Ex04.main env (fuel + k) = Ex04.main env fuel)) := by
  refine ⟨⟨?_, ?_, ?_⟩, ⟨?_, ?_, ?_⟩, ⟨?_, ?_, ?_⟩⟩
  · intro a es h
    exact foldl_quit_of_quit Ex02.dispatch Ex02.App.quit ex02_dispatch_quit_mono es a h
  · intro a ps h
    have hq := iteration_quit Ex02.dispatch Ex02.App.quit Ex02.redraw ex02_dispatch_quit_mono
      ex02_dispatch_quit_event ex02_dispatched_redraw a ps h
    refine ⟨hq, ?_, fun fuel => whileNotQuit_of_quit _ _ _ fuel _ _ hq⟩
    rw [dispatched_iteration _ _ ex02_dispatched_redraw]
    exact iteration_calls _ _ a ps
  · intro env fuel hok h
    obtain ⟨hq, hex⟩ := whileNotQuit_after_quit Ex02.dispatch Ex02.App.quit Ex02.redraw
      ex02_dispatch_quit_mono ex02_dispatch_quit_event ex02_dispatched_redraw fuel _ _ h
    have hmain : ∀ k, Ex02.main env (fuel + k) = some ⟨Exit.code 0,
        (Ex02.init env Ex02.Globals.initial).calls ++ (Ex02.mainLoop env fuel).calls
          ++ (Ex02.close (Ex02.mainLoop env fuel).app.g).2⟩ := by
      intro k
      have hs := whileNotQuit_stable Ex02.dispatch Ex02.App.quit Ex02.redraw fuel k _ _ hq
      have hq2 : (Ex02.mainLoop env fuel).app.quit = true := hq
      simp only [Ex02.main, hok, hs]
      simp [Ex02.mainLoop, hq2] at hq2 ⊢
      simp [hq2]
    refine ⟨by simpa using hmain 0, hex, fun k => ?_⟩
    rw [hmain k]
    simpa using (hmain 0).symm
  · intro a es h
    exact foldl_quit_of_quit Ex03.dispatch Ex03.App.quit ex03_dispatch_quit_mono es a h
  · intro a ps h
    have hq := iteration_quit Ex03.dispatch Ex03.App.quit Ex03.redraw ex03_dispatch_quit_mono
      ex03_dispatch_quit_event ex03_dispatched_redraw a ps h
    refine ⟨hq, ?_, fun fuel => whileNotQuit_of_quit _ _ _ fuel _ _ hq⟩
    rw [dispatched_iteration _ _ ex03_dispatched_redraw]
    exact iteration_calls _ _ a ps
  · intro env fuel hok h
    obtain ⟨hq, hex⟩ := whileNotQuit_after_quit Ex03.dispatch Ex03.App.quit Ex03.redraw
      ex03_dispatch_quit_mono ex03_dispatch_quit_event ex03_dispatched_redraw fuel _ _ h
    have hmain : ∀ k, Ex03.main env (fuel + k) = some ⟨Exit.code 0,
        (Ex03.init env Ex03.Globals.initial).2.2 ++ (Ex03.mainLoop env fuel).calls
          ++ (Ex03.close (Ex03.mainLoop env fuel).app.g).2⟩ := by
      intro k
      have hs := whileNotQuit_stable Ex03.dispatch Ex03.App.quit Ex03.redraw fuel k _ _ hq
      have hq2 : (Ex03.mainLoop env fuel).app.quit = true := hq
      simp only [Ex03.main, hok, hs]
      simp [Ex03.mainLoop, hq2] at hq2 ⊢
      simp [hq2]
    refine ⟨by simpa using hmain 0, hex, fun k => ?_⟩
    rw [hmain k]
    simpa using (hmain 0).symm
  · intro a es h
    exact foldl_quit_of_quit Ex04.dispatch Ex04.App.quit ex04_dispatch_quit_mono es a h
  · intro a ps h
    have hq := iteration_quit Ex04.dispatch Ex04.App.quit Ex04.redraw ex04_dispatch_quit_mono
      ex04_dispatch_quit_event ex04_dispatched_redraw a ps h
    refine ⟨hq, ?_, fun fuel => whileNotQuit_of_quit _ _ _ fuel _ _ hq⟩
    rw [dispatched_iteration _ _ ex04_dispatched_redraw]
    exact iteration_calls _ _ a ps
  · intro env fuel hok h
    obtain ⟨hq, hex⟩ := whileNotQuit_after_quit Ex04.dispatch Ex04.App.quit Ex04.redraw
      ex04_dispatch_quit_mono ex04_dispatch_quit_event ex04_dispatched_redraw fuel _ _ h
    have hmain : ∀ k, Ex04.main env (fuel + k) = some ⟨Exit.code 0,
        (Ex04.init env Ex04.Globals.initial).2.2 ++ (Ex04.mainLoop env fuel).calls
          ++ (Ex04.close (Ex04.mainLoop env fuel).app.g).2⟩ := by
      intro k
      have hs := whileNotQuit_stable Ex04.dispatch Ex04.App.quit Ex04.redraw fuel k _ _ hq
      have hq2 : (Ex04.mainLoop env fuel).app.quit = true := hq
      simp only [Ex04.main, hok, hs]
      simp [Ex04.mainLoop, hq2] at hq2 ⊢
      simp [hq2]
    refine ⟨by simpa using hmain 0, hex, fun k => ?_⟩
    rw [hmain k]
    simpa using (hmain 0).symm

/-! ## Teardown order -/

section TeardownLemmas
variable {σ : Type}

/-- A property of every poll and of every call of the redraw holds of every
call of the main loop. -/
theorem whileNotQuit_calls_forall (P : Call → Prop) (d : σ → Event → σ) (q : σ → Bool)
    (rd : σ → List Call) (hpoll : ∀ r, P (Call.SDL_PollEvent r))
    (hrd : ∀ a, ∀ c ∈ rd a, P c) (n : Nat) (a : σ) (ps : PollState) :
    ∀ c ∈ (whileNotQuit d q rd n a ps).calls, P c := by
  induction n generalizing a ps with
  | zero => simp [whileNotQuit]
  | succ n ih =>
    cases ha : q a with
    | true => simp [whileNotQuit_of_quit d q rd _ a ps ha]
    | false =>
      rw [whileNotQuit_succ d q rd n a ps ha]
      intro c hc
      rcases List.mem_append.mp hc with hc | hc
      · rcases List.mem_append.mp hc with hc | hc
        · have hp := drain_calls_isPoll d _ a ps c hc
          cases c <;> simp [isPoll] at hp
          exact hpoll _
        · exact hrd _ c hc
      · exact ih _ _ c hc

theorem acquisitions_eq_nil (l : List Call) (h : ∀ c ∈ l, acquired c = none) :
    acquisitions l = [] := by
  unfold acquisitions
  induction l with
  | nil => rfl
  | cons c l ih =>
    rw [List.filterMap_cons, h c (List.mem_cons_self _ _)]
    exact ih (fun x hx => h x (List.mem_cons_of_mem _ hx))

theorem releases_eq_nil (l : List Call) (h : ∀ c ∈ l, released c = none) :
    releases l = [] := by
  unfold releases
  induction l with
  | nil => rfl
  | cons c l ih =>
    rw [List.filterMap_cons, h c (List.mem_cons_self _ _)]
    exact ih (fun x hx => h x (List.mem_cons_of_mem _ hx))

theorem acquisitions_append (xs ys : List Call) :
    acquisitions (xs ++ ys) = acquisitions xs ++ acquisitions ys := by
  simp [acquisitions]

theorem releases_append (xs ys : List Call) :
    releases (xs ++ ys) = releases xs ++ releases ys := by
  simp [releases]

end TeardownLemmas

theorem ex03_teardown_of_failure (env : Env)
    (h : (Ex03.init env Ex03.Globals.initial).1 = false) :
    ReverseTeardown (fun g => (Ex03.close g).2) (Ex03.init env Ex03.Globals.initial).2.2 := by
  revert h
  apply ex03_init_elim env
    (fun r => r.1 = false → ReverseTeardown (fun g => (Ex03.close g).2) r.2.2)
  case hSdl =>
    intro h1 _
    exact ⟨_, [], (List.append_nil _).symm, Or.inl rfl, by simp [released],
      by simp [releases, acquisitions, released, acquired, h1]⟩
  case hImg =>
    intro h1 h2 _
    exact ⟨_, _, (List.take_append_drop 3 _).symm,
      Or.inr ⟨⟨none, none, none⟩, by simp [Ex03.close]⟩, by simp [released],
      by simp [releases, acquisitions, released, acquired, h1, h2]⟩
  case hWin =>
    intro h1 h2 _ _
    exact ⟨_, _, (List.take_append_drop 4 _).symm,
      Or.inr ⟨⟨none, none, none⟩, by simp [Ex03.close]⟩, by simp [released],
      by simp [releases, acquisitions, released, acquired, h1, h2]⟩
  case hRen =>
    intro w h1 h2 _ _ _
    exact ⟨_, _, (List.take_append_drop 5 _).symm,
      Or.inr ⟨⟨some w, none, none⟩, by simp [Ex03.close]⟩, by simp [released],
      by simp [releases, acquisitions, released, acquired, h1, h2]⟩
  case hLoad =>
    intro w r h1 h2 _ _ _ _
    exact ⟨_, _, (List.take_append_drop 7 _).symm,
      Or.inr ⟨⟨some w, some r, none⟩, by simp [Ex03.close]⟩, by simp [released],
      by simp [releases, acquisitions, released, acquired, h1, h2]⟩
  case hTex =>
    intro w r s h1 h2 _ _ _ _ _
    exact ⟨_, _, (List.take_append_drop 9 _).symm,
      Or.inr ⟨⟨some w, some r, none⟩, by simp [Ex03.close]⟩, by simp [released],
      by simp [releases, acquisitions, released, acquired, h1, h2]⟩
  case hOk =>
    intros
    simp_all

theorem ex03_teardown_of_success (env : Env) (loop : List Call)
    (hl : ∀ c ∈ loop, acquired c = none ∧ released c = none)
    (h : (Ex03.init env Ex03.Globals.initial).1 = true) :
    ReverseTeardown (fun g => (Ex03.close g).2)
      ((Ex03.init env Ex03.Globals.initial).2.2 ++ loop
        ++ (Ex03.close (Ex03.init env Ex03.Globals.initial).2.1).2) := by
  have ha := acquisitions_eq_nil loop (fun c hc => (hl c hc).1)
  have hr := releases_eq_nil loop (fun c hc => (hl c hc).2)
  revert h
  apply ex03_init_elim env
    (fun r => r.1 = true → ReverseTeardown (fun g => (Ex03.close g).2)
      (r.2.2 ++ loop ++ (Ex03.close r.2.1).2))
  case hOk =>
    intro w r s t h1 h2 _ _ _ _ _
    refine ⟨_, _, rfl, Or.inr ⟨⟨some w, some r, some t⟩, rfl⟩, ?_, ?_⟩
    · intro c hc x hx
      rcases List.mem_append.mp hc with hT | hL
      · clear hc
        revert x
        revert c
        simp [released]
      · rw [(hl c hL).2] at hx
        cases hx
    · rw [acquisitions_append, releases_append, ha, hr]
      simp [Ex03.close, releases, acquisitions, released, acquired, h1, h2]
  all_goals intros; simp_all

theorem ex03_dispatch_g (a : Ex03.App) (e : Event) : (Ex03.dispatch a e).g = a.g := by
  unfold Ex03.dispatch
  split_ifs <;> rfl

theorem ex03_redraw_no_resource (a : Ex03.App) :
    ∀ c ∈ Ex03.redraw a, acquired c = none ∧ released c = none := by
  simp [Ex03.redraw, acquired, released]

/-- Every finished run of example 03 tears down in reverse order of
acquisition. -/
theorem ex03_main_reverseTeardown (env : Env) (fuel : Nat) (run : Run)
    (h : Ex03.main env fuel = some run) :
    ReverseTeardown (fun g => (Ex03.close g).2) run.calls := by
  unfold Ex03.main at h
  simp only at h
  cases hi : (Ex03.init env Ex03.Globals.initial).1 with
  | false =>
    rw [hi] at h
    simp only [Bool.not_false, if_true, Option.some.injEq] at h
    subst h
    exact ex03_teardown_of_failure env hi
  | true =>
    rw [hi] at h
    simp only [Bool.not_true, Bool.false_eq_true, if_false] at h
    split at h
    · simp only [Option.some.injEq] at h
      subst h
      have hg := whileNotQuit_invariant Ex03.App.g Ex03.dispatch Ex03.App.quit Ex03.redraw
        ex03_dispatch_g fuel ⟨false, (Ex03.init env Ex03.Globals.initial).2.1⟩ env.events
      simp only [hg]
      exact ex03_teardown_of_success env _
        (whileNotQuit_calls_forall _ _ _ _ (fun _ => ⟨rfl, rfl⟩) ex03_redraw_no_resource
          fuel _ _) hi
    · simp at h

theorem ex04_teardown_of_failure (env : Env)
    (h : (Ex04.init env Ex04.Globals.initial).1 = false) :
    ReverseTeardown (fun g => (Ex04.close g).2) (Ex04.init env Ex04.Globals.initial).2.2 := by
  revert h
  apply ex04_init_elim env
    (fun r => r.1 = false → ReverseTeardown (fun g => (Ex04.close g).2) r.2.2)
  case hSdl =>
    intro h1 _
    exact ⟨_, [], (List.append_nil _).symm, Or.inl rfl, by simp [released],
      by simp [releases, acquisitions, released, acquired, h1]⟩
  case hTtf =>
    intro h1 h2 _
    exact ⟨_, _, (List.take_append_drop 3 _).symm,
      Or.inr ⟨⟨none, none, none, none⟩, by simp [Ex04.close]⟩, by simp [released],
      by simp [releases, acquisitions, released, acquired, h1, h2]⟩
  case hWin =>
    intro h1 h2 _ _
    exact ⟨_, _, (List.take_append_drop 4 _).symm,
      Or.inr ⟨⟨none, none, none, none⟩, by simp [Ex04.close]⟩, by simp [released],
      by simp [releases, acquisitions, released, acquired, h1, h2]⟩
  case hRen =>
    intro w h1 h2 _ _ _
    exact ⟨_, _, (List.take_append_drop 5 _).symm,
      Or.inr ⟨⟨some w, none, none, none⟩, by simp [Ex04.close]⟩, by simp [released],
      by simp [releases, acquisitions, released, acquired, h1, h2]⟩
  case hFont =>
    intro w r h1 h2 _ _ _ _
    exact ⟨_, _, (List.take_append_drop 7 _).symm,
      Or.inr ⟨⟨some w, some r, none, none⟩, by simp [Ex04.close]⟩, by simp [released],
      by simp [releases, acquisitions, released, acquired, h1, h2]⟩
  case hText =>
    intro w r f h1 h2 _ _ _ _ _
    exact ⟨_, _, (List.take_append_drop 8 _).symm,
      Or.inr ⟨⟨some w, some r, none, some f⟩, by simp [Ex04.close]⟩, by simp [released],
      by simp [releases, acquisitions, released, acquired, h1, h2]⟩
  case hTex =>
    intro w r f s h1 h2 _ _ _ _ _ _
    exact ⟨_, _, (List.take_append_drop 10 _).symm,
      Or.inr ⟨⟨some w, some r, none, some f⟩, by simp [Ex04.close]⟩, by simp [released],
      by simp [releases, acquisitions, released, acquired, h1, h2]⟩
  case hOk =>
    intros
    simp_all

theorem ex04_teardown_of_success (env : Env) (loop : List Call)
    (hl : ∀ c ∈ loop, acquired c = none ∧ released c = none)
    (h : (Ex04.init env Ex04.Globals.initial).1 = true) :
    ReverseTeardown (fun g => (Ex04.close g).2)
      ((Ex04.init env Ex04.Globals.initial).2.2 ++ loop
        ++ (Ex04.close (Ex04.init env Ex04.Globals.initial).2.1).2) := by
  have ha := acquisitions_eq_nil loop (fun c hc => (hl c hc).1)
  have hr := releases_eq_nil loop (fun c hc => (hl c hc).2)
  revert h
  apply ex04_init_elim env
    (fun r => r.1 = true → ReverseTeardown (fun g => (Ex04.close g).2)
      (r.2.2 ++ loop ++ (Ex04.close r.2.1).2))
  case hOk =>
    intro w r f s t h1 h2 _ _ _ _ _ _
    refine ⟨_, _, rfl, Or.inr ⟨⟨some w, some r, some t, some f⟩, rfl⟩, ?_, ?_⟩
    · intro c hc x hx
      rcases List.mem_append.mp hc with hT | hL
      · clear hc
        revert x
        revert c
        simp [released]
      · rw [(hl c hL).2] at hx
        cases hx
    · rw [acquisitions_append, releases_append, ha, hr]
      simp [Ex04.close, releases, acquisitions, released, acquired, h1, h2]
  all_goals intros; simp_all

theorem ex04_dispatch_g (a : Ex04.App) (e : Event) : (Ex04.dispatch a e).g = a.g := by
  unfold Ex04.dispatch
  split_ifs <;> rfl

theorem ex04_redraw_no_resource (a : Ex04.App) :
    ∀ c ∈ Ex04.redraw a, acquired c = none ∧ released c = none := by
  simp [Ex04.redraw, acquired, released]

/-- Every finished run of example 04 tears down in reverse order of
acquisition. -/
theorem ex04_main_reverseTeardown (env : Env) (fuel : Nat) (run : Run)
    (h : Ex04.main env fuel = some run) :
    ReverseTeardown (fun g => (Ex04.close g).2) run.calls := by
  unfold Ex04.main at h
  simp only at h
  cases hi : (Ex04.init env Ex04.Globals.initial).1 with
  | false =>
    rw [hi] at h
    simp only [Bool.not_false, if_true, Option.some.injEq] at h
    subst h
    exact ex04_teardown_of_failure env hi
  | true =>
    rw [hi] at h
    simp only [Bool.not_true, Bool.false_eq_true, if_false] at h
    split at h
    · simp only [Option.some.injEq] at h
      subst h
      have hg := whileNotQuit_invariant Ex04.App.g Ex04.dispatch Ex04.App.quit Ex04.redraw
        ex04_dispatch_g fuel ⟨false, (Ex04.init env Ex04.Globals.initial).2.1⟩ env.events
      simp only [hg]
      exact ex04_teardown_of_success env _
        (whileNotQuit_calls_forall _ _ _ _ (fun _ => ⟨rfl, rfl⟩) ex04_redraw_no_resource
          fuel _ _) hi
    · simp at h

/-- C4: teardown reverses acquisition. In examples 03 and 04, in every finished
run of `main` (normal quit, or failure at any initializer step) the releases
made by `close()` on the resources the run acquired are exactly the reverse of
the order in which they were acquired and were still held; and from every state
of the statics `close()` releases the texture, then the font (example 04), then
the renderer, then the window, each if present, then the extension library and
SDL last. -/
theorem C4_teardown_reverses_acquisition (env : Env) (fuel : Nat) (run : Run) :
    (Ex03.main env fuel = some run →
      ReverseTeardown (fun g => (Ex03.close g).2) run.calls) ∧
    (Ex04.main env fuel = some run →
      ReverseTeardown (fun g => (Ex04.close g).2) run.calls) ∧
    (∀ g : Ex03.Globals, releases (Ex03.close g).2 =
      (g.gTexture.map Resource.texture).toList ++ (g.gRenderer.map Resource.renderer).toList
        ++ (g.gWindow.map Resource.window).toList ++ [Resource.ext, Resource.sdl]) ∧
    (∀ g : Ex04.Globals, releases (Ex04.close g).2 =
      (g.gTexture.map Resource.texture).toList ++ (g.gFont.map Resource.font).toList
        ++ (g.gRenderer.map Resource.renderer).toList
        ++ (g.gWindow.map Resource.window).toList ++ [Resource.ext, Resource.sdl]) := by
  refine ⟨ex03_main_reverseTeardown env fuel run, ex04_main_reverseTeardown env fuel run,
    ?_, ?_⟩
  · rintro ⟨w, r, t⟩
    cases w <;> cases r <;> cases t <;> simp [Ex03.close, releases, released]
  · rintro ⟨w, r, t, f⟩
    cases w <;> cases r <;> cases t <;> cases f <;> simp [Ex04.close, releases, released]

/-- The C4 theorem on the run of example 04 in which every call succeeds and a
quit event is queued: the run acquires SDL, SDL_ttf, the window, the renderer,
the font, a temporary surface and the texture, frees the surface, and `close()`
releases texture, font, renderer, window, SDL_ttf, SDL. -/
theorem C4_teardown_reverses_acquisition_witness :
    ReverseTeardown (fun g => (Ex04.close g).2)
      [Call.SDL_Init 0, Call.TTF_Init 0, Call.SDL_CreateWindow (some 1),
       Call.SDL_CreateRenderer (some 1) (some 3), Call.SDL_SetRenderDrawColor (some 3),
       Call.TTF_OpenFont (some 5), Call.TTF_RenderText_Solid (some 5) (some 4),
       Call.SDL_CreateTextureFromSurface (some 3) (some 4) (some 6),
       Call.SDL_FreeSurface (some 4),
       Call.SDL_PollEvent (some quitEvent), Call.SDL_PollEvent none,
       Call.SDL_RenderClear (some 3), Call.SDL_RenderCopy (some 3) (some 6),
       Call.SDL_RenderPresent (some 3),
       Call.SDL_DestroyTexture (some 6), Call.TTF_CloseFont (some 5),
       Call.SDL_DestroyRenderer (some 3), Call.SDL_DestroyWindow (some 1),
       Call.TTF_Quit, Call.SDL_Quit] ∧
    acquisitions
      [Call.SDL_Init 0, Call.TTF_Init 0, Call.SDL_CreateWindow (some 1),
       Call.SDL_CreateRenderer (some 1) (some 3), Call.SDL_SetRenderDrawColor (some 3),
       Call.TTF_OpenFont (some 5), Call.TTF_RenderText_Solid (some 5) (some 4),
       Call.SDL_CreateTextureFromSurface (some 3) (some 4) (some 6),
       Call.SDL_FreeSurface (some 4)]
      = [Resource.sdl, Resource.ext, Resource.window 1, Resource.renderer 3,
         Resource.font 5, Resource.surface 4, Resource.texture 6] ∧
    releases (Ex04.close ⟨some 1, some 3, some 6, some 5⟩).2
      = [Resource.texture 6, Resource.font 5, Resource.renderer 3, Resource.window 1,
         Resource.ext, Resource.sdl] :=
  ⟨(C4_teardown_reverses_acquisition (goodEnv ⟨[quitEvent], []⟩) 1
      ⟨Exit.code 0,
       [Call.SDL_Init 0, Call.TTF_Init 0, Call.SDL_CreateWindow (some 1),
        Call.SDL_CreateRenderer (some 1) (some 3), Call.SDL_SetRenderDrawColor (some 3),
        Call.TTF_OpenFont (some 5), Call.TTF_RenderText_Solid (some 5) (some 4),
        Call.SDL_CreateTextureFromSurface (some 3) (some 4) (some 6),
        Call.SDL_FreeSurface (some 4),
        Call.SDL_PollEvent (some quitEvent), Call.SDL_PollEvent none,
        Call.SDL_RenderClear (some 3), Call.SDL_RenderCopy (some 3) (some 6),
        Call.SDL_RenderPresent (some 3),
        Call.SDL_DestroyTexture (some 6), Call.TTF_CloseFont (some 5),
        Call.SDL_DestroyRenderer (some 3), Call.SDL_DestroyWindow (some 1),
        Call.TTF_Quit, Call.SDL_Quit]⟩).2.1 (by decide),
   by decide, by decide⟩

/-- The C8 theorem on a run of example 02: a key-down of UP arrives at the
first poll, a key-up at the third and a quit event at the fifth. The run makes
three iterations (red, white, white), the third being the one that dispatches
the quit event, then `close()`, and returns 0. -/
theorem C8_quit_stops_the_loop_witness :
    Ex02.main (goodEnv ⟨[], [[keyDown SDLK_UP], [], [keyUp SDLK_UP], [], [quitEvent]]⟩) 3
      = some ⟨Exit.code 0,
        [Call.SDL_Init 0, Call.SDL_CreateWindow (some 1),
         Call.SDL_GetWindowSurface (some 1) (some 2),
         Call.deref_format (some 2), Call.SDL_MapRGB 0xFF 0xFF 0xFF,
         Call.deref_format (some 2), Call.SDL_MapRGB 0xFF 0x00 0x00,
         Call.deref_format (some 2), Call.SDL_MapRGB 0xFF 0xFF 0x00,
         Call.deref_format (some 2), Call.SDL_MapRGB 0x00 0xFF 0x00,
         Call.deref_format (some 2), Call.SDL_MapRGB 0x00 0x00 0xFF,
         Call.SDL_PollEvent (some (keyDown SDLK_UP)), Call.SDL_PollEvent none,
         Call.SDL_FillRect (some 2) 0xFF0000, Call.SDL_UpdateWindowSurface (some 1),
         Call.SDL_PollEvent (some (keyUp SDLK_UP)), Call.SDL_PollEvent none,
         Call.SDL_FillRect (some 2) 0xFFFFFF, Call.SDL_UpdateWindowSurface (some 1),
         Call.SDL_PollEvent (some quitEvent), Call.SDL_PollEvent none,
         Call.SDL_FillRect (some 2) 0xFFFFFF, Call.SDL_UpdateWindowSurface (some 1),
         Call.SDL_DestroyWindow (some 1), Call.SDL_Quit]⟩ ∧
    Ex02.main (goodEnv ⟨[], [[keyDown SDLK_UP], [], [keyUp SDLK_UP], [], [quitEvent]]⟩)
        (3 + 10)
      = Ex02.main (goodEnv ⟨[], [[keyDown SDLK_UP], [], [keyUp SDLK_UP], [], [quitEvent]]⟩) 3 :=
  ⟨(C8_quit_stops_the_loop.1.2.2
      (goodEnv ⟨[], [[keyDown SDLK_UP], [], [keyUp SDLK_UP], [], [quitEvent]]⟩) 3
      (by decide) (by decide)).1.trans (by decide),
   (C8_quit_stops_the_loop.1.2.2
      (goodEnv ⟨[], [[keyDown SDLK_UP], [], [keyUp SDLK_UP], [], [quitEvent]]⟩) 3
      (by decide) (by decide)).2.2 10⟩

/-! ## Use of handles -/

/-- C9 fails in examples 01 and 02 when `SDL_GetWindowSurface` returns `NULL`:
whenever `SDL_Init` and `SDL_CreateWindow` succeed and `SDL_GetWindowSurface`
returns `NULL`, both programs read `format` through the `NULL` surface pointer,
without a test, as their last call. At the sample environment the calls are as
listed. -/
theorem C9_null_surface_dereferenced :
    (∀ env : Env, ¬ env.sdlInit < 0 → env.createWindow ≠ none →
      env.getWindowSurface = none →
      (Ex01.main env).exit = Exit.fault ∧
      (Ex01.main env).calls.getLast? = some (Call.deref_format none) ∧
      ∀ fuel, Ex02.main env fuel = some ⟨Exit.fault,
        [Call.SDL_Init env.sdlInit, Call.SDL_CreateWindow env.createWindow,
         Call.SDL_GetWindowSurface env.createWindow none, Call.deref_format none]⟩) ∧
    Ex01.main nullSurfaceEnv = ⟨Exit.fault,
      [Call.SDL_Init 0, Call.SDL_CreateWindow (some 1),
       Call.SDL_GetWindowSurface (some 1) none, Call.deref_format none]⟩ ∧
    receivesNull (Call.deref_format none) = true := by
  refine ⟨?_, by decide, by decide⟩
  intro env h1 h2 h3
  refine ⟨by simp [Ex01.main, h1, h2, h3], by simp [Ex01.main, h1, h2, h3], fun fuel => ?_⟩
  simp [Ex02.main, Ex02.init, h1, h2, h3]

/-! ## The drain bound of the specification's poll -/

section SpecPoll
variable {σ : Type}

/-- Every finite sequence of poll results is produced by `SDL_PollEvent` from
some `PollState`: the schedule that makes each event available to the poll
that returns it. -/
theorem pollResults_realised (rs : List (Option Event)) :
    pollResults rs.length ⟨[], rs.map Option.toList⟩ = rs := by
  induction rs with
  | nil => rfl
  | cons r rs ih =>
    cases r with
    | none =>
      show none :: pollResults rs.length ⟨[], rs.map Option.toList⟩ = none :: rs
      rw [ih]
    | some e =>
      show some e :: pollResults rs.length ⟨[], rs.map Option.toList⟩ = some e :: rs
      rw [ih]

theorem drainWith_succ_none {κ : Type} (poll : κ → Option Event × κ) (d : σ → Event → σ)
    (n : Nat) (a : σ) (q q1 : κ) (h : poll q = (none, q1)) :
    drainWith poll d (n + 1) a q = ⟨a, q1, [Call.SDL_PollEvent none]⟩ := by
  simp [drainWith, h]

theorem drainWith_succ_some {κ : Type} (poll : κ → Option Event × κ) (d : σ → Event → σ)
    (n : Nat) (a : σ) (q q1 : κ) (e : Event) (h : poll q = (some e, q1)) :
    drainWith poll d (n + 1) a q =
      ⟨(drainWith poll d n (d a e) q1).app, (drainWith poll d n (d a e) q1).queue,
        Call.SDL_PollEvent (some e) :: (drainWith poll d n (d a e) q1).calls⟩ := by
  simp [drainWith, h]

/-- The drain of the main loops is the drain over a poll function, taken at
`SDL_PollEvent`. -/
theorem drain_eq_drainWith (d : σ → Event → σ) (n : Nat) (a : σ) (ps : PollState) :
    drain d n a ps =
      ⟨(drainWith SDL_PollEvent d n a ps).app, (drainWith SDL_PollEvent d n a ps).queue,
        (drainWith SDL_PollEvent d n a ps).calls⟩ := by
  induction n generalizing a ps with
  | zero => rfl
  | succ n ih =>
    rcases h : SDL_PollEvent ps with ⟨_ | e, ps1⟩
    · rw [drain_succ_none d n a ps ps1 h, drainWith_succ_none SDL_PollEvent d n a ps ps1 h]
    · rw [drain_succ_some d n a ps ps1 e h,
        drainWith_succ_some SDL_PollEvent d n a ps ps1 e h, ih]

theorem dispatched_map_poll (es : List Event) :
    dispatched (es.map (fun e => Call.SDL_PollEvent (some e)) ++ [Call.SDL_PollEvent none])
      = es := by
  induction es with
  | nil => simp [dispatched]
  | cons e es ih =>
    simp only [dispatched, List.map_cons, List.cons_append, List.filterMap_cons] at ih ⊢
    rw [ih]

/-- A drain in progress over the poll of the specification hands out the
events that are left of those enqueued when it began, then the poll returns 0;
what arrives meanwhile is kept for later. -/
theorem drainWith_spec_draining (d : σ → Event → σ) (c : List Event) :
    ∀ (n : Nat) (a : σ) (l : List Event) (arr : List (List Event)), c.length < n →
      drainWith SDL_PollEvent_spec d n a ⟨c, l, true, arr⟩ =
        ⟨c.foldl d a,
         ⟨[], l ++ (arr.take (c.length + 1)).flatten, false, arr.drop (c.length + 1)⟩,
         c.map (fun e => Call.SDL_PollEvent (some e)) ++ [Call.SDL_PollEvent none]⟩ := by
  induction c with
  | nil =>
    intro n a l arr hn
    obtain ⟨n, rfl⟩ : ∃ m, n = m + 1 := ⟨n - 1, by simp at hn; omega⟩
    rw [drainWith_succ_none SDL_PollEvent_spec d n a ⟨[], l, true, arr⟩
      ⟨[], l ++ arr.headD [], false, arr.tail⟩ rfl]
    cases arr <;> simp
  | cons e c ih =>
    intro n a l arr hn
    obtain ⟨n, rfl⟩ : ∃ m, n = m + 1 := ⟨n - 1, by simp at hn; omega⟩
    rw [drainWith_succ_some SDL_PollEvent_spec d n a ⟨e :: c, l, true, arr⟩
      ⟨c, l ++ arr.headD [], true, arr.tail⟩ e rfl]
    rw [ih n (d a e) (l ++ arr.headD []) arr.tail (by simp at hn; omega)]
    cases arr <;> simp

/-- A drain that begins over the poll of the specification, with enough fuel. -/
theorem drainWith_spec_start (d : σ → Event → σ) (queue : List Event)
    (arr : List (List Event)) (n : Nat) (a : σ) (hn : (queue ++ arr.headD []).length < n) :
    drainWith SDL_PollEvent_spec d n a (CycleQueue.atDrainStart queue arr) =
      ⟨(queue ++ arr.headD []).foldl d a,
       CycleQueue.atDrainStart ((arr.tail.take (queue ++ arr.headD []).length).flatten)
         (arr.tail.drop (queue ++ arr.headD []).length),
       (queue ++ arr.headD []).map (fun e => Call.SDL_PollEvent (some e))
         ++ [Call.SDL_PollEvent none]⟩ := by
  obtain ⟨n, rfl⟩ : ∃ m, n = m + 1 := ⟨n - 1, by omega⟩
  cases h : queue ++ arr.headD [] with
  | nil =>
    have hp : SDL_PollEvent_spec (CycleQueue.atDrainStart queue arr)
        = (none, ⟨[], [], false, arr.tail⟩) := by
      simp only [SDL_PollEvent_spec, CycleQueue.atDrainStart, h]
      rfl
    rw [drainWith_succ_none SDL_PollEvent_spec d n a _ _ hp]
    simp [CycleQueue.atDrainStart]
  | cons e c =>
    have hp : SDL_PollEvent_spec (CycleQueue.atDrainStart queue arr)
        = (some e, ⟨c, [], true, arr.tail⟩) := by
      simp only [SDL_PollEvent_spec, CycleQueue.atDrainStart, h]
      rfl
    rw [h] at hn
    rw [drainWith_succ_some SDL_PollEvent_spec d n a _ _ e hp,
      drainWith_spec_draining d c n (d a e) [] arr.tail (by simp at hn; omega)]
    simp [CycleQueue.atDrainStart]

end SpecPoll

theorem drainAllSpec_atDrainStart {σ : Type} (d : σ → Event → σ) (a : σ)
    (queue : List Event) (arr : List (List Event)) :
    drainAllSpec d a (CycleQueue.atDrainStart queue arr) =
      ⟨(queue ++ arr.headD []).foldl d a,
       CycleQueue.atDrainStart ((arr.tail.take (queue ++ arr.headD []).length).flatten)
         (arr.tail.drop (queue ++ arr.headD []).length),
       (queue ++ arr.headD []).map (fun e => Call.SDL_PollEvent (some e))
         ++ [Call.SDL_PollEvent none]⟩ := by
  unfold drainAllSpec
  apply drainWith_spec_start
  simp only [CycleQueue.atDrainStart, List.length_append, List.length_nil]
  omega

/-- C7: with `SDL_PollEvent` as the specification describes it, the drain of
an iteration dispatches only the events that were in the queue when the drain
began. For every dispatch, every queue content at the start of the drain and
every schedule of arrivals, the events dispatched are exactly the events
enqueued by the first poll, so their number is bounded by the queue length at
the start of the drain; the drain ends with the poll that returns 0; the events
that arrive while the drain is in progress are all still queued afterwards and
are the first ones dispatched by the next drain; any fuel above the queue
length gives this result; and the calls and the resulting state are those of
the drain of the main loops when the library hands out exactly the events
enqueued by the first poll. -/
theorem C7_drain_dispatches_only_queued_events {σ : Type} (d : σ → Event → σ) (a : σ)
    (queue : List Event) (arrivals : List (List Event)) :
    dispatched (drainAllSpec d a (CycleQueue.atDrainStart queue arrivals)).calls
      = queue ++ arrivals.headD [] ∧
    (dispatched (drainAllSpec d a (CycleQueue.atDrainStart queue arrivals)).calls).length
      ≤ (queue ++ arrivals.headD []).length ∧
    (drainAllSpec d a (CycleQueue.atDrainStart queue arrivals)).calls
      = (queue ++ arrivals.headD []).map (fun e => Call.SDL_PollEvent (some e))
          ++ [Call.SDL_PollEvent none] ∧
    (drainAllSpec d a (CycleQueue.atDrainStart queue arrivals)).app
      = (queue ++ arrivals.headD []).foldl d a ∧
    (drainAllSpec d a (CycleQueue.atDrainStart queue arrivals)).queue
      = CycleQueue.atDrainStart
          ((arrivals.tail.take (queue ++ arrivals.headD []).length).flatten)
          (arrivals.tail.drop (queue ++ arrivals.headD []).length) ∧
    (∀ b : σ,
      dispatched (drainAllSpec d b
          (drainAllSpec d a (CycleQueue.atDrainStart queue arrivals)).queue).calls
        = (arrivals.tail.take (queue ++ arrivals.headD []).length).flatten
            ++ (arrivals.tail.drop (queue ++ arrivals.headD []).length).headD []) ∧
    (∀ fuel, (queue ++ arrivals.headD []).length < fuel →
      drainWith SDL_PollEvent_spec d fuel a (CycleQueue.atDrainStart queue arrivals)
        = drainAllSpec d a (CycleQueue.atDrainStart queue arrivals)) ∧
    (drainAllSpec d a (CycleQueue.atDrainStart queue arrivals)).calls
      = (drainAll d a ⟨queue, [arrivals.headD []]⟩).calls ∧
    (drainAllSpec d a (CycleQueue.atDrainStart queue arrivals)).app
      = (drainAll d a ⟨queue, [arrivals.headD []]⟩).app := by
  have key := drainAllSpec_atDrainStart d a queue arrivals
  have hquiet : dispatched (drainAll d a ⟨queue, [arrivals.headD []]⟩).calls
      = queue ++ arrivals.headD [] :=
    drain_dispatched_quiet d _ a ⟨queue, [arrivals.headD []]⟩ (Nat.lt_succ_self _)
      (by simp)
  have hcalls : (drainAll d a ⟨queue, [arrivals.headD []]⟩).calls
      = (queue ++ arrivals.headD []).map (fun e => Call.SDL_PollEvent (some e))
          ++ [Call.SDL_PollEvent none] := by
    have h := drain_calls_complete d _ a ⟨queue, [arrivals.headD []]⟩ (Nat.lt_succ_self _)
    rw [show dispatched (drain d (PollState.pending ⟨queue, [arrivals.headD []]⟩ + 1) a
        ⟨queue, [arrivals.headD []]⟩).calls = queue ++ arrivals.headD [] from hquiet] at h
    exact h
  have happ : (drainAll d a ⟨queue, [arrivals.headD []]⟩).app
      = (queue ++ arrivals.headD []).foldl d a := by
    have h := drain_app d (PollState.pending ⟨queue, [arrivals.headD []]⟩ + 1) a
      ⟨queue, [arrivals.headD []]⟩
    rw [show dispatched (drain d (PollState.pending ⟨queue, [arrivals.headD []]⟩ + 1) a
        ⟨queue, [arrivals.headD []]⟩).calls = queue ++ arrivals.headD [] from hquiet] at h
    exact h
  refine ⟨?_, ?_, ?_, ?_, ?_, ?_, ?_, ?_, ?_⟩
  · rw [key]
    exact dispatched_map_poll _
  · rw [key]
    exact Nat.le_of_eq (congrArg List.length (dispatched_map_poll _))
  · rw [key]
  · rw [key]
  · rw [key]
  · intro b
    rw [key, drainAllSpec_atDrainStart]
    exact dispatched_map_poll _
  · intro fuel hf
    rw [key]
    exact drainWith_spec_start d queue arrivals fuel a hf
  · rw [key, hcalls]
  · rw [key, happ]

/-- The C7 theorem at a sample queue: one key-down queued when the drain
begins, a quit event arriving before the second poll. The drain of example 02
dispatches the key-down only, the quit event is still queued afterwards, and
the next drain dispatches it. -/
theorem C7_drain_dispatches_only_queued_events_witness :
    dispatched (drainAllSpec Ex02.dispatch (⟨false, sampleGlobals⟩ : Ex02.App)
      (CycleQueue.atDrainStart [keyDown SDLK_UP] [[], [quitEvent]])).calls
      = [keyDown SDLK_UP] ∧
    (drainAllSpec Ex02.dispatch (⟨false, sampleGlobals⟩ : Ex02.App)
      (CycleQueue.atDrainStart [keyDown SDLK_UP] [[], [quitEvent]])).queue
      = CycleQueue.atDrainStart [quitEvent] [] ∧
    dispatched (drainAllSpec Ex02.dispatch (⟨false, sampleGlobals⟩ : Ex02.App)
      (drainAllSpec Ex02.dispatch (⟨false, sampleGlobals⟩ : Ex02.App)
        (CycleQueue.atDrainStart [keyDown SDLK_UP] [[], [quitEvent]])).queue).calls
      = [quitEvent] :=
  ⟨(C7_drain_dispatches_only_queued_events Ex02.dispatch ⟨false, sampleGlobals⟩
      [keyDown SDLK_UP] [[], [quitEvent]]).1,
   (C7_drain_dispatches_only_queued_events Ex02.dispatch ⟨false, sampleGlobals⟩
      [keyDown SDLK_UP] [[], [quitEvent]]).2.2.2.2.1,
   (C7_drain_dispatches_only_queued_events Ex02.dispatch ⟨false, sampleGlobals⟩
      [keyDown SDLK_UP] [[], [quitEvent]]).2.2.2.2.2.1 ⟨false, sampleGlobals⟩⟩

end SDLExamples
